import Mathlib

set_option autoImplicit false

/-
Shallow embedding of the partyx particle engine core:
  - src/src/ParticlePool.ts            (ParticlePool)
  - src/partyx-library/src/ParticleItem.ts    (ParticleItem)
  - src/partyx-library/src/ParticleEmitter.ts (ParticleEmitter)
JS numbers are modelled as rationals; the JS value Infinity (used for an
absent lifespan and for an unbounded pool size) is modelled as `none` of an
`Option`.  `Math.random()` is modelled by an explicit supply `r : Nat → ℚ`
together with a cursor `k : Nat`; each call consumes one draw.  JS truthiness
(`if (x)` treating `0` and `undefined` as false) is modelled explicitly by
the `truthy*` helpers.
-/

namespace Partyx

/-- A configuration value: either a fixed scalar or a `[min, max]` range
(`ParticleOptionRange` in `types.ts`). -/
inductive PRange where
  | scalar (v : ℚ)
  | pair (a b : ℚ)

/-- JS truthiness of a `ParticleOptionRange`: the number `0` is falsy, every
array (range) is truthy. -/
def PRange.truthy : PRange → Bool
  | .scalar v => decide (v ≠ 0)
  | .pair _ _ => true

/-- JS truthiness of an optional `ParticleOptionRange` (`undefined` is falsy). -/
def truthyR : Option PRange → Bool
  | none => false
  | some rg => rg.truthy

/-- JS truthiness of an optional number (`undefined` and `0` are falsy). -/
def truthyN : Option ℚ → Bool
  | none => false
  | some v => decide (v ≠ 0)

/-- `ParticleEmitter.randomFromRange`, with the `Math.random()` draw made
explicit: `r` is the random supply, `k` the cursor; an array consumes one
draw and yields `r k * (max - min) + min`, a scalar is returned unchanged. -/
def randomFromRange (r : ℕ → ℚ) (k : ℕ) : PRange → ℚ × ℕ
  | .pair a b => (r k * (b - a) + a, k + 1)
  | .scalar v => (v, k)

/-- Sampling an optional range; the `none` case is unreachable at call sites,
which are all guarded by `truthyR`. -/
def randomFromRangeOpt (r : ℕ → ℚ) (k : ℕ) : Option PRange → ℚ × ℕ
  | none => (0, k)
  | some rg => randomFromRange r k rg

/-- An axis-aligned rectangle (pixi `Rectangle`). -/
structure Rect where
  x : ℚ
  y : ℚ
  width : ℚ
  height : ℚ

/-- `ParticleVector1Physics` from `types.ts`. -/
structure Vec1Physics where
  value : PRange
  velocity : Option PRange := none
  acceleration : Option PRange := none
  maxVelocity : Option ℚ := none

/-- `ParticleVector2Physics` from `types.ts`. -/
structure Vec2Physics where
  x : PRange
  y : PRange
  velocity : Option PRange := none
  velocityX : Option PRange := none
  velocityY : Option PRange := none
  acceleration : Option PRange := none
  accelerationX : Option PRange := none
  accelerationY : Option PRange := none
  maxVelocity : Option ℚ := none
  maxVelocityX : Option ℚ := none
  maxVelocityY : Option ℚ := none

/-- The numeric/visual state of a `ParticleItem` (including the pixi `Sprite`
state it inherits: position, scale, rotation, alpha, tint, anchor and the
texture's intrinsic size).  Hook fields live on `Particle` below, because
hooks consume this state.  Field defaults are the construction-time values
of a fresh `ParticleItem` (whose constructor also sets the anchor to 0.5). -/
structure PData where
  seed : ℚ := 0
  surfaceFactor : ℚ := 1
  inPool : Bool := false
  mass : ℚ := 1
  x : ℚ := 0
  y : ℚ := 0
  velocityX : ℚ := 0
  velocityY : ℚ := 0
  accelerationX : ℚ := 0
  accelerationY : ℚ := 0
  scaleX : ℚ := 1
  scaleY : ℚ := 1
  scaleVelocityX : ℚ := 0
  scaleVelocityY : ℚ := 0
  scaleAccelerationX : ℚ := 0
  scaleAccelerationY : ℚ := 0
  rotation : ℚ := 0
  rotationVelocity : ℚ := 0
  rotationAcceleration : ℚ := 0
  maxVelocityX : ℚ := -1
  maxVelocityY : ℚ := -1
  maxScaleVelocityX : ℚ := -1
  maxScaleVelocityY : ℚ := -1
  maxRotationVelocity : ℚ := -1
  initAlpha : ℚ := 0
  alphaStart : ℚ := -1
  alphaEnd : ℚ := -1
  alpha : ℚ := 1
  tint : ℚ := 16777215
  colorStart : Option ℚ := none
  colorEnd : Option ℚ := none
  scaleStart : Option ℚ := none
  scaleEnd : Option ℚ := none
  lifespan : Option ℚ := none
  currentLife : ℚ := 0
  initX : ℚ := 0
  initY : ℚ := 0
  initVelocityX : ℚ := 0
  initVelocityY : ℚ := 0
  initScaleX : ℚ := 0
  initScaleY : ℚ := 0
  initRotation : ℚ := 0
  initRotationVelocity : ℚ := 0
  texWidth : ℚ := 0
  texHeight : ℚ := 0
  anchorX : ℚ := 1/2
  anchorY : ℚ := 1/2

/-- A `ParticleItem`: its numeric state plus the stored callbacks
(`alphaGetter`, `colorGetter`, `onUpdate`).  Callbacks are modelled as
functions over the numeric state `PData` (a hook in JS receives the particle
object itself; the embedding cuts hook self-modification of the hook slots). -/
structure Particle where
  pd : PData
  alphaGetter : Option (PData → ℚ → ℚ) := none
  colorGetter : Option (PData → ℚ → ℚ) := none
  onUpdate : Option (PData → ℚ → Option Rect → PData) := none

/-- A freshly constructed `ParticleItem` carrying a texture of the given
intrinsic size. -/
def freshParticle (tw th : ℚ) : Particle :=
  { pd := { texWidth := tw, texHeight := th } }

/-- Scale spawn option: scalar/range, start-end transition, or 2-axis physics. -/
inductive ScaleOpt where
  | range (rg : PRange)
  | startEnd (start stop : PRange)
  | phys (v : Vec2Physics)

/-- Alpha spawn option: per-frame function or start-end transition. -/
inductive AlphaOpt where
  | func (f : PData → ℚ → ℚ)
  | startEnd (start stop : PRange)

/-- Color spawn option: per-frame function, array of choices, flat number, or
start-end transition. -/
inductive ColorOpt where
  | func (f : PData → ℚ → ℚ)
  | arr (cs : List ℚ)
  | scalar (c : ℚ)
  | startEnd (start stop : PRange)

/-- `ParticleSpawnOptions` from `types.ts`. -/
structure SpawnOptions where
  position : Vec2Physics
  scale : Option ScaleOpt := none
  rotation : Option Vec1Physics := none
  alpha : Option AlphaOpt := none
  color : Option ColorOpt := none
  onInit : Option (PData → Option Rect → PData) := none
  onUpdate : Option (PData → ℚ → Option Rect → PData) := none
  lifespan : Option PRange := none

/-- JS truthiness of `spawnOptions.scale`: the number `0` is falsy; ranges
(arrays) and the two object forms are truthy. -/
def scaleTruthy : Option ScaleOpt → Bool
  | none => false
  | some (.range rg) => rg.truthy
  | some _ => true

/-- JS truthiness of `spawnOptions.color`: the number `0` is falsy; arrays,
functions and objects are truthy. -/
def colorTruthy : Option ColorOpt → Bool
  | none => false
  | some (.scalar c) => decide (c ≠ 0)
  | some _ => true

/-- `ParticleEmitterInitData` from `types.ts`. -/
structure InitData where
  spawnOptions : SpawnOptions
  contentFrame : Option Rect := none

/-- `ParticleItem.updateSurfaceFactor`:
`(texture.width * texture.height * scale.x * scale.y) / 1000`. -/
def updateSurfaceFactor (q : PData) : PData :=
  { q with surfaceFactor := q.texWidth * q.texHeight * q.scaleX * q.scaleY / 1000 }

/-- The color-array index `Math.floor(seed * array.length)` computed by
`ParticleItem.init` when the color option is an array. -/
def colorArrayIndex (seed : ℚ) (len : ℕ) : ℤ :=
  ⌊seed * (len : ℚ)⌋

/-- JS `Math.round`-style rounding used when a pixi `Color` is written back to
an integer tint. -/
def jsRound (x : ℚ) : ℤ := ⌊x + 1/2⌋

/-- Red channel (in `[0,1]`) of an integer color number (pixi `Color`). -/
def colorRed (v : ℚ) : ℚ := (((⌊v⌋ / 65536) % 256 : ℤ) : ℚ) / 255

/-- Green channel (in `[0,1]`) of an integer color number (pixi `Color`). -/
def colorGreen (v : ℚ) : ℚ := (((⌊v⌋ / 256) % 256 : ℤ) : ℚ) / 255

/-- Blue channel (in `[0,1]`) of an integer color number (pixi `Color`). -/
def colorBlue (v : ℚ) : ℚ := ((⌊v⌋ % 256 : ℤ) : ℚ) / 255

/-- Recombination of RGB channels into an integer color number (pixi `Color`
written to a tint drops the alpha channel). -/
def rgbToNumber (red green blue : ℚ) : ℚ :=
  ((jsRound (red * 255) * 65536 + jsRound (green * 255) * 256 + jsRound (blue * 255) : ℤ) : ℚ)

namespace ParticleItem

/-- `ParticleItem.reset`: restore the fields listed in the source to their
defaults.  Exactly the fields assigned in the source are updated (note that
`mass`, the seed, the surface factor, the texture and the anchor are not
among them). -/
def reset (p : Particle) : Particle :=
  { pd := { p.pd with
      x := 0, y := 0,
      velocityX := 0, velocityY := 0,
      accelerationX := 0, accelerationY := 0,
      scaleX := 1, scaleY := 1,
      scaleVelocityX := 0, scaleVelocityY := 0,
      scaleAccelerationX := 0, scaleAccelerationY := 0,
      rotation := 0, rotationVelocity := 0, rotationAcceleration := 0,
      maxVelocityX := -1, maxVelocityY := -1,
      maxScaleVelocityX := -1, maxScaleVelocityY := -1,
      maxRotationVelocity := -1,
      alphaStart := -1, alphaEnd := -1, alpha := 1,
      tint := 16777215,
      colorStart := none, colorEnd := none,
      scaleStart := none, scaleEnd := none,
      lifespan := none, currentLife := 0,
      initAlpha := 0, initX := 0, initY := 0,
      initVelocityX := 0, initVelocityY := 0,
      initScaleX := 0, initScaleY := 0,
      initRotation := 0, initRotationVelocity := 0 },
    alphaGetter := none, colorGetter := none, onUpdate := none }

/-- `ParticleItem.init`: reset, then sample every spawn property in source
order, run `onInit`, refresh the surface factor, snapshot the init fields and
store `onUpdate`.  Returns the initialized particle and the advanced random
cursor. -/
def init (p0 : Particle) (dat : InitData) (r : ℕ → ℚ) (k0 : ℕ) : Particle × ℕ :=
  let p := reset p0
  let so := dat.spawnOptions
  let q := p.pd
  let q := { q with seed := r k0 }
  let k := k0 + 1
  -- Position
  let (xv, k) := randomFromRange r k so.position.x
  let (yv, k) := randomFromRange r k so.position.y
  let q := { q with x := xv, y := yv }
  -- Velocity
  let (q, k) :=
    if truthyR so.position.velocity then
      let (v, k) := randomFromRangeOpt r k so.position.velocity
      ({ q with velocityX := v, velocityY := v }, k)
    else
      let (q, k) :=
        if truthyR so.position.velocityX then
          let (v, k) := randomFromRangeOpt r k so.position.velocityX
          ({ q with velocityX := v }, k)
        else (q, k)
      if truthyR so.position.velocityY then
        let (v, k) := randomFromRangeOpt r k so.position.velocityY
        ({ q with velocityY := v }, k)
      else (q, k)
  -- Acceleration
  let (q, k) :=
    if truthyR so.position.acceleration then
      let (v, k) := randomFromRangeOpt r k so.position.acceleration
      ({ q with accelerationX := v, accelerationY := v }, k)
    else
      let (q, k) :=
        if truthyR so.position.accelerationX then
          let (v, k) := randomFromRangeOpt r k so.position.accelerationX
          ({ q with accelerationX := v }, k)
        else (q, k)
      if truthyR so.position.accelerationY then
        let (v, k) := randomFromRangeOpt r k so.position.accelerationY
        ({ q with accelerationY := v }, k)
      else (q, k)
  -- Max Velocities
  let q :=
    if truthyN so.position.maxVelocity then
      let v := so.position.maxVelocity.getD 0
      { q with maxVelocityX := v, maxVelocityY := v }
    else
      let q :=
        if truthyN so.position.maxVelocityX then
          { q with maxVelocityX := so.position.maxVelocityX.getD 0 }
        else q
      if truthyN so.position.maxVelocityY then
        { q with maxVelocityY := so.position.maxVelocityY.getD 0 }
      else q
  -- Scale
  let (q, k) :=
    if scaleTruthy so.scale then
      let (q, k) :=
        match so.scale with
        | some (.range rg) =>
          let (s, k) := randomFromRange r k rg
          ({ q with scaleX := s, scaleY := s }, k)
        | some (.startEnd st en) =>
          let (sv, k) := randomFromRange r k st
          let (ev, k) := randomFromRange r k en
          ({ q with scaleStart := some sv, scaleEnd := some ev, scaleX := sv, scaleY := sv }, k)
        | some (.phys v2) =>
          let (sx, k) := randomFromRange r k v2.x
          let (sy, k) := randomFromRange r k v2.y
          let q := { q with scaleX := sx, scaleY := sy }
          let (q, k) :=
            if truthyR v2.velocity then
              let (v, k) := randomFromRangeOpt r k v2.velocity
              ({ q with scaleVelocityX := v, scaleVelocityY := v }, k)
            else
              let (q, k) :=
                if truthyR v2.velocityX then
                  let (v, k) := randomFromRangeOpt r k v2.velocityX
                  ({ q with scaleVelocityX := v }, k)
                else (q, k)
              if truthyR v2.velocityY then
                let (v, k) := randomFromRangeOpt r k v2.velocityY
                ({ q with scaleVelocityY := v }, k)
              else (q, k)
          let (q, k) :=
            if truthyR v2.acceleration then
              let (v, k) := randomFromRangeOpt r k v2.acceleration
              ({ q with scaleAccelerationX := v, scaleAccelerationY := v }, k)
            else
              let (q, k) :=
                if truthyR v2.accelerationX then
                  let (v, k) := randomFromRangeOpt r k v2.accelerationX
                  ({ q with scaleAccelerationX := v }, k)
                else (q, k)
              if truthyR v2.accelerationY then
                let (v, k) := randomFromRangeOpt r k v2.accelerationY
                ({ q with scaleAccelerationY := v }, k)
              else (q, k)
          let q :=
            if truthyN v2.maxVelocity then
              let v := v2.maxVelocity.getD 0
              { q with maxScaleVelocityX := v, maxScaleVelocityY := v }
            else
              let q :=
                if truthyN v2.maxVelocityX then
                  { q with maxScaleVelocityX := v2.maxVelocityX.getD 0 }
                else q
              if truthyN v2.maxVelocityY then
                { q with maxScaleVelocityY := v2.maxVelocityY.getD 0 }
              else q
          (q, k)
        | none => (q, k)
      (updateSurfaceFactor q, k)
    else (q, k)
  -- Rotation
  let (q, k) :=
    match so.rotation with
    | some rot =>
      let (rv, k) := randomFromRange r k rot.value
      let q := { q with rotation := rv }
      let (q, k) :=
        if truthyR rot.velocity then
          let (v, k) := randomFromRangeOpt r k rot.velocity
          ({ q with rotationVelocity := v }, k)
        else (q, k)
      let (q, k) :=
        if truthyR rot.acceleration then
          let (v, k) := randomFromRangeOpt r k rot.acceleration
          ({ q with rotationAcceleration := v }, k)
        else (q, k)
      let q :=
        if truthyN rot.maxVelocity then
          { q with maxRotationVelocity := rot.maxVelocity.getD 0 }
        else q
      (q, k)
    | none => (q, k)
  -- Alpha
  let (q, ag, k) :=
    match so.alpha with
    | some (.func f) => (q, some f, k)
    | some (.startEnd st en) =>
      let (sv, k) := randomFromRange r k st
      let (ev, k) := randomFromRange r k en
      let q := { q with alphaStart := sv, alphaEnd := ev }
      let q := if q.alphaStart > -1 then { q with alpha := q.alphaStart } else q
      (q, (none : Option (PData → ℚ → ℚ)), k)
    | none => (q, none, k)
  -- Color
  let (q, cg, k) :=
    if colorTruthy so.color then
      match so.color with
      | some (.func f) => (q, some f, k)
      | some (.arr cs) =>
        -- JS `cs[idx]` yields `undefined` when out of range; modelled as
        -- leaving the tint unchanged (the index is in range whenever the
        -- supply respects the `Math.random` contract and `cs` is nonempty).
        ({ q with tint := (cs.get? (colorArrayIndex q.seed cs.length).toNat).getD q.tint },
         (none : Option (PData → ℚ → ℚ)), k)
      | some (.scalar c) => ({ q with tint := c }, none, k)
      | some (.startEnd st en) =>
        if st.truthy && en.truthy then
          let (sv, k) := randomFromRange r k st
          let (ev, k) := randomFromRange r k en
          ({ q with colorStart := some sv, colorEnd := some ev, tint := sv }, none, k)
        else (q, none, k)
      | none => (q, none, k)
    else (q, none, k)
  -- Lifespan
  let (q, k) :=
    if truthyR so.lifespan then
      let (lv, k) := randomFromRangeOpt r k so.lifespan
      ({ q with lifespan := some lv }, k)
    else ({ q with lifespan := none }, k)
  let q := { q with currentLife := 0 }
  -- On Init
  let q :=
    match so.onInit with
    | some f => f q dat.contentFrame
    | none => q
  -- If onInit changed texture/scale, refresh surface factor
  let q := updateSurfaceFactor q
  -- Capture created state after onInit may have touched it
  let q := { q with
    initAlpha := q.alpha, initX := q.x, initY := q.y,
    initVelocityX := q.velocityX, initVelocityY := q.velocityY,
    initScaleX := q.scaleX, initScaleY := q.scaleY,
    initRotation := q.rotation, initRotationVelocity := q.rotationVelocity }
  -- On Update (after reset the slot is empty, so this is just the option)
  ({ pd := q, alphaGetter := ag, colorGetter := cg, onUpdate := so.onUpdate }, k)

/-- The lifespan value `updatePhysics` divides by:
`this.lifespan > 0 ? this.lifespan : Infinity` (`none` models `Infinity`,
for which the JS comparison `Infinity > 0` holds). -/
def safeLifespan : Option ℚ → Option ℚ
  | none => none
  | some l => if 0 < l then some l else none

/-- The life fraction: `0` for an infinite lifespan, otherwise
`min(currentLife / lifespan, 1)`. -/
def lifePercent : Option ℚ → ℚ → ℚ
  | none, _ => 0
  | some l, cur => min (cur / l) 1

/-- `ParticleItem.clampAbs`: clamp by magnitude; a negative cap means
unlimited. -/
def clampAbs (value maxAbs : ℚ) : ℚ :=
  if maxAbs < 0 then value
  else if value > maxAbs then maxAbs
  else if value < -maxAbs then -maxAbs
  else value

/-- `ParticleItem.updatePhysics`: advance life, integrate position, scale and
rotation, evaluate alpha and color, clamp the velocity-like fields by
magnitude, then run the `onUpdate` hook. -/
def updatePhysics (p : Particle) (elapsedMS : ℚ) (contentFrame : Option Rect) : Particle :=
  let elapsedSec := elapsedMS / 1000
  let q := p.pd
  -- Lifespan (safe even when lifespan is 0/invalid)
  let safeL := safeLifespan q.lifespan
  let q := { q with currentLife := q.currentLife + elapsedSec }
  let lp := lifePercent safeL q.currentLife
  -- Update Position
  let q := { q with
    x := q.x + q.velocityX * elapsedSec,
    y := q.y + q.velocityY * elapsedSec,
    velocityX := q.velocityX + q.accelerationX * elapsedSec,
    velocityY := q.velocityY + q.accelerationY * elapsedSec }
  -- Update Scale
  let q :=
    match q.scaleStart, q.scaleEnd with
    | some st, some en =>
      updateSurfaceFactor { q with
        scaleX := st + (en - st) * lp,
        scaleY := st + (en - st) * lp }
    | _, _ =>
      updateSurfaceFactor { q with
        scaleX := q.scaleX + q.scaleVelocityX * elapsedSec,
        scaleY := q.scaleY + q.scaleVelocityY * elapsedSec,
        scaleVelocityX := q.scaleVelocityX + q.scaleAccelerationX * elapsedSec,
        scaleVelocityY := q.scaleVelocityY + q.scaleAccelerationY * elapsedSec }
  -- Update Rotation
  let q := { q with
    rotation := q.rotation + q.rotationVelocity * elapsedSec,
    rotationVelocity := q.rotationVelocity + q.rotationAcceleration * elapsedSec }
  -- Update Alpha
  let q :=
    match p.alphaGetter with
    | some f => { q with alpha := f q elapsedMS }
    | none =>
      if q.alphaStart > -1 ∧ q.alphaEnd > -1 then
        { q with alpha := q.alphaStart + (q.alphaEnd - q.alphaStart) * lp }
      else q
  -- Update Color
  let q :=
    match p.colorGetter with
    | some f => { q with tint := f q elapsedMS }
    | none =>
      match q.colorStart, q.colorEnd with
      | some cs, some ce =>
        let red := colorRed cs + (colorRed ce - colorRed cs) * lp
        let green := colorGreen cs + (colorGreen ce - colorGreen cs) * lp
        let blue := colorBlue cs + (colorBlue ce - colorBlue cs) * lp
        { q with tint := rgbToNumber red green blue }
      | _, _ => q
  -- Max Velocities (clamp by magnitude)
  let q := { q with
    velocityX := clampAbs q.velocityX q.maxVelocityX,
    velocityY := clampAbs q.velocityY q.maxVelocityY,
    scaleVelocityX := clampAbs q.scaleVelocityX q.maxScaleVelocityX,
    scaleVelocityY := clampAbs q.scaleVelocityY q.maxScaleVelocityY,
    rotationVelocity := clampAbs q.rotationVelocity q.maxRotationVelocity }
  -- On Update
  let q :=
    match p.onUpdate with
    | some f => f q elapsedMS contentFrame
    | none => q
  { p with pd := q }

/-- Iterated `updatePhysics` with a fixed elapsed time and content frame. -/
def iterAdvance (p : Particle) (elapsedMS : ℚ) (contentFrame : Option Rect) : ℕ → Particle
  | 0 => p
  | n + 1 => iterAdvance (updatePhysics p elapsedMS contentFrame) elapsedMS contentFrame n

end ParticleItem

/-- The pool-capacity test `createdCount < maxPoolSize` (`none` models
`Infinity`, for which the JS comparison always holds). -/
def createdLtMax (c : ℕ) : Option ℤ → Bool
  | none => true
  | some m => decide ((c : ℤ) < m)

/-- `ParticlePool` specialized to particles, as owned by the emitter.
`items` is the JS array (push/pop at the tail), `createdCount` the lifetime
creation counter. -/
structure PPool where
  items : List Particle := []
  createdCount : ℕ := 0
  maxPoolSize : Option ℤ := none

namespace PPool

/-- `ParticlePool.get`: pop the most recently returned instance if the free
list is non-empty, otherwise construct a new instance while the creation
counter is under the cap; either way clear `inPool` and call `init`.
`newItem` is the instance produced by `new this._constructor()`. -/
def get (pl : PPool) (newItem : Particle) (dat : InitData) (r : ℕ → ℚ) (k : ℕ) :
    Option Particle × PPool × ℕ :=
  match pl.items.getLast? with
  | some it =>
    let it := { it with pd := { it.pd with inPool := false } }
    let (it, k') := ParticleItem.init it dat r k
    (some it, { pl with items := pl.items.dropLast }, k')
  | none =>
    if createdLtMax pl.createdCount pl.maxPoolSize then
      let it := { newItem with pd := { newItem.pd with inPool := false } }
      let (it, k') := ParticleItem.init it dat r k
      (some it, { pl with createdCount := pl.createdCount + 1 }, k')
    else (none, pl, k)

/-- `ParticlePool.return`: idempotent via `inPool`; otherwise set `inPool`,
reset the item and push it onto the free list. -/
def ret (pl : PPool) (item : Particle) : PPool :=
  if item.pd.inPool then pl
  else
    let item := ParticleItem.reset { item with pd := { item.pd with inPool := true } }
    { pl with items := pl.items ++ [item] }

/-- `ParticlePool.prepopulate`: construct `count` instances in the pooled
state (counter incremented, `inPool` set, reset, pushed).  The creation
counter is not checked against `maxPoolSize` here. -/
def prepopulate (pl : PPool) (newItem : Particle) : ℕ → PPool
  | 0 => pl
  | n + 1 =>
    let item := ParticleItem.reset { newItem with pd := { newItem.pd with inPool := true } }
    prepopulate { pl with createdCount := pl.createdCount + 1, items := pl.items ++ [item] }
      newItem n

end PPool

/-
An instance-identity model of `ParticlePool`, used to count the distinct
instances `get` hands out: instances are named by their creation index, the
`flagInPool` store holds each instance's `inPool` flag, and a run of
operations collects the ids returned by `get`.
-/

/-- One public pool operation. -/
inductive PoolOp where
  | get
  | ret (id : ℕ)
  | clear
  | prepopulate (n : ℕ)

/-- `PoolOp.prepopulate`? -/
def PoolOp.isPrepopulate : PoolOp → Bool
  | .prepopulate _ => true
  | _ => false

/-- The identity-level state of a `ParticlePool`: the free list holds
creation indices; `flagInPool` is each created instance's `inPool` field. -/
structure PoolSim where
  items : List ℕ := []
  createdCount : ℕ := 0
  maxPoolSize : Option ℤ := none
  flagInPool : ℕ → Bool := fun _ => false

namespace PoolSim

/-- `ParticlePool.prepopulate` on identities: each iteration creates instance
`createdCount`, marks it pooled and pushes it (no `maxPoolSize` check). -/
def prepop (s : PoolSim) : ℕ → PoolSim
  | 0 => s
  | n + 1 =>
    prepop
      { s with
        createdCount := s.createdCount + 1,
        flagInPool := fun j => if j = s.createdCount then true else s.flagInPool j,
        items := s.items ++ [s.createdCount] }
      n

/-- One pool operation on identities, mirroring `ParticlePool`:
`get` pops the tail of the free list or creates instance `createdCount` when
under the cap; `return` is an `inPool`-guarded push; `clear` empties the free
list only; `prepopulate` creates unconditionally. -/
def step (s : PoolSim) : PoolOp → PoolSim × Option ℕ
  | .get =>
    match s.items.getLast? with
    | some i =>
      ({ s with
          items := s.items.dropLast,
          flagInPool := fun j => if j = i then false else s.flagInPool j }, some i)
    | none =>
      if createdLtMax s.createdCount s.maxPoolSize then
        ({ s with
            createdCount := s.createdCount + 1,
            flagInPool := fun j => if j = s.createdCount then false else s.flagInPool j },
         some s.createdCount)
      else (s, none)
  | .ret i =>
    if s.flagInPool i then (s, none)
    else
      ({ s with
          flagInPool := fun j => if j = i then true else s.flagInPool j,
          items := s.items ++ [i] }, none)
  | .clear => ({ s with items := [] }, none)
  | .prepopulate n => (s.prepop n, none)

/-- Run a list of pool operations, collecting the instance ids handed out by
`get`. -/
def run (s : PoolSim) : List PoolOp → PoolSim × List ℕ
  | [] => (s, [])
  | op :: ops =>
    let (s', out) := s.step op
    let (s'', outs) := run s' ops
    (s'', out.toList ++ outs)

/-- The `ParticlePool` constructor on identities: store the cap
(`maxPoolSize ?? Infinity`) and prepopulate when a positive initial size is
given (`initialSize && initialSize > 0`). -/
def create (maxPoolSize : Option ℤ) (initialSize : Option ℕ) : PoolSim :=
  let s : PoolSim := { maxPoolSize := maxPoolSize }
  match initialSize with
  | some n => if 0 < n then s.prepop n else s
  | none => s

end PoolSim

/-
The emitter (`ParticleEmitter.ts`).
-/

/-- The emitter's resolved environment settings (`this._environment`). -/
structure EnvSt where
  affectSurface : Bool := false
  gravity : ℚ := 0
  airResistance : ℚ := 0
  windX : ℚ := 0
  windY : ℚ := 0

/-- The optional `updateOptions.environment` configuration block. -/
structure EnvOpts where
  affectSurface : Option Bool := none
  gravity : Option ℚ := none
  airResistance : Option ℚ := none
  windX : Option ℚ := none
  windY : Option ℚ := none

/-- `ParticleUpdateOptions` from `types.ts`. -/
structure UpdateOptions where
  spawnRate : Vec1Physics
  interval : ℚ
  environment : Option EnvOpts := none
  spawnDuration : Option ℚ := none

/-- `ParticleEmitterOptions` from `types.ts`; `newParticle` is the instance
`new options.ClassType()` produces. -/
structure EmitterOptions where
  newParticle : Particle
  initialSize : ℕ
  maxParticles : Option ℤ := none
  spawnOptions : SpawnOptions
  updateOptions : UpdateOptions
  contentFrame : Option Rect := none

/-- The mutable state of a `ParticleEmitter` (configuration fields included,
as the class stores them on the instance).  `children` is the display list of
live particles; `rk` is the random-supply cursor. -/
structure EmitterState where
  pool : PPool
  children : List Particle := []
  contentFrame : Option Rect := none
  spawnOptions : SpawnOptions
  updateOptions : UpdateOptions
  env : EnvSt := {}
  spawnDuration : ℚ := 0
  spawn : Bool := false
  updateElapsed : ℚ := 0
  spawnElapsed : ℚ := 0
  spawnInterval : ℚ := 0
  spawnRate : ℚ := 0
  spawnRateVelocity : ℚ := 0
  spawnRateAcceleration : ℚ := 0
  spawnRateMaxVelocity : ℚ := -1
  spawnDurationElapsed : ℚ := 0
  isRunning : Bool := false
  isPaused : Bool := false
  clockConnected : Bool := false
  newParticle : Particle
  rk : ℕ := 0

/-- JS `Math.sign`. -/
def mathSign (x : ℚ) : ℚ :=
  if x > 0 then 1 else if x < 0 then -1 else 0

/-- JS truncation toward zero (used by the `%` remainder operator). -/
def jsTrunc (x : ℚ) : ℤ :=
  if 0 ≤ x then ⌊x⌋ else -⌊-x⌋

/-- JS `%` remainder: `a - b * trunc(a / b)`. -/
def jsMod (a b : ℚ) : ℚ :=
  a - b * (jsTrunc (a / b) : ℚ)

namespace ParticleEmitter

/-- `_recalcSpawnInterval`: `rate = max(spawnRate, 0)`;
`interval = rate > 0 ? 1000 / rate : 0`. -/
def recalcSpawnInterval (e : EmitterState) : EmitterState :=
  let rate := max e.spawnRate 0
  { e with spawnInterval := if rate > 0 then 1000 / rate else 0 }

/-- `_updateSpawnRate`: integrate the rate acceleration into the rate
velocity (magnitude-clamped when the cap is non-negative), integrate the rate
velocity into the rate (floored at 0), recompute the interval.  The two JS
truthiness guards are on the current field values. -/
def updateSpawnRate (e : EmitterState) (elapsedMS : ℚ) : EmitterState :=
  let elapsedSec := elapsedMS / 1000
  let e :=
    if e.spawnRateAcceleration ≠ 0 then
      { e with spawnRateVelocity := e.spawnRateVelocity + e.spawnRateAcceleration * elapsedSec }
    else e
  let e :=
    if e.spawnRateMaxVelocity ≥ 0 then
      let clamped := max (-e.spawnRateMaxVelocity) (min e.spawnRateMaxVelocity e.spawnRateVelocity)
      { e with spawnRateVelocity := clamped }
    else e
  let e :=
    if e.spawnRateVelocity ≠ 0 then
      let rate := e.spawnRate + e.spawnRateVelocity * elapsedSec
      { e with spawnRate := if rate < 0 then 0 else rate }
    else e
  recalcSpawnInterval e

/-- `_spawnParticle`: ask the pool for an initialized particle and attach it
to the display list when one is produced. -/
def spawnParticle (e : EmitterState) (r : ℕ → ℚ) : EmitterState :=
  let (po, pl, k') :=
    e.pool.get e.newParticle { spawnOptions := e.spawnOptions, contentFrame := e.contentFrame } r e.rk
  match po with
  | some p => { e with pool := pl, rk := k', children := e.children ++ [p] }
  | none => { e with pool := pl, rk := k' }

/-- The `for (let i = 0; i < numSpawns; i++) this._spawnParticle()` loop. -/
def spawnLoop (e : EmitterState) (r : ℕ → ℚ) : ℕ → EmitterState
  | 0 => e
  | n + 1 => spawnLoop (spawnParticle e r) r n

/-- `_spawn`: accumulate elapsed time, and once it reaches the interval spawn
`floor(accumulator / interval)` particles and keep the remainder. -/
def doSpawn (e : EmitterState) (r : ℕ → ℚ) (elapsedMS : ℚ) : EmitterState :=
  if e.spawn = false ∨ e.spawnInterval = 0 then e
  else
    let e := { e with spawnElapsed := e.spawnElapsed + elapsedMS }
    if e.spawnElapsed < e.spawnInterval then e
    else
      let numSpawns : ℤ := ⌊e.spawnElapsed / e.spawnInterval⌋
      if numSpawns ≤ 0 then e
      else
        let e := spawnLoop e r numSpawns.toNat
        { e with spawnElapsed := jsMod e.spawnElapsed e.spawnInterval }

/-- `isPhysicsAffectedByParticleSurface`: surface effects are on, and wind or
air resistance is non-zero (JS truthiness of the numbers). -/
def isPhysicsAffectedByParticleSurface (env : EnvSt) : Bool :=
  env.affectSurface && (env.windX ≠ 0 || env.windY ≠ 0 || env.airResistance ≠ 0)

/-- `_applyEnvironment`, factored over the emitter's environment settings:
gravity, then per-axis air resistance (sign-preserving, floored at zero),
then wind.  All guards follow JS truthiness of the numbers. -/
def applyEnvFrame (env : EnvSt) (p : Particle) (elapsedMS : ℚ) : Particle :=
  let elapsedSec := elapsedMS / 1000
  let particleSurface := if isPhysicsAffectedByParticleSurface env then p.pd.surfaceFactor else 1
  let q := p.pd
  -- Gravity
  let q :=
    if env.gravity ≠ 0 then { q with velocityY := q.velocityY + env.gravity * elapsedSec }
    else q
  -- Air resistance
  let q :=
    if env.airResistance ≠ 0 then
      if q.velocityX ≠ 0 ∨ q.velocityY ≠ 0 then
        let mass := if q.mass = 0 then 1 else q.mass
        let q :=
          if q.velocityX ≠ 0 then
            let signVelX := mathSign q.velocityX
            let absVelX := |q.velocityX|
            let reductionX := elapsedSec * particleSurface * env.airResistance * absVelX / mass
            { q with velocityX := if absVelX > reductionX then signVelX * (absVelX - reductionX) else 0 }
          else q
        if q.velocityY ≠ 0 then
          let signVelY := mathSign q.velocityY
          let absVelY := |q.velocityY|
          let reductionY := elapsedSec * particleSurface * env.airResistance * absVelY / mass
          { q with velocityY := if absVelY > reductionY then signVelY * (absVelY - reductionY) else 0 }
        else q
      else q
    else q
  -- Wind
  let q :=
    if env.windX ≠ 0 then { q with velocityX := q.velocityX + env.windX * particleSurface * elapsedSec }
    else q
  let q :=
    if env.windY ≠ 0 then { q with velocityY := q.velocityY + env.windY * particleSurface * elapsedSec }
    else q
  { p with pd := q }

/-- `_applyEnvironment` as the emitter method. -/
def applyEnvironment (e : EmitterState) (p : Particle) (elapsedMS : ℚ) : Particle :=
  applyEnvFrame e.env p elapsedMS

/-- The pixi `Sprite` width: `|scale.x| * texture.width`. -/
def pWidth (q : PData) : ℚ := |q.scaleX| * q.texWidth

/-- The pixi `Sprite` height: `|scale.y| * texture.height`. -/
def pHeight (q : PData) : ℚ := |q.scaleY| * q.texHeight

/-- `isOutOfBounds`, factored over the content frame: build the particle's
axis-aligned box from its dimensions and anchor and report true only when the
box is completely outside the frame on some axis.  No frame means never out
of bounds. -/
def isOutOfBoundsFrame (frame : Option Rect) (p : Particle) : Bool :=
  match frame with
  | none => false
  | some f =>
    let w := pWidth p.pd
    let h := pHeight p.pd
    let left := p.pd.x - w * p.pd.anchorX
    let top := p.pd.y - h * p.pd.anchorY
    let right := left + w
    let bottom := top + h
    let frameRight := f.x + f.width
    let frameBottom := f.y + f.height
    decide (right < f.x ∨ left > frameRight ∨ bottom < f.y ∨ top > frameBottom)

/-- `isOutOfBounds` as the emitter method. -/
def isOutOfBounds (e : EmitterState) (p : Particle) : Bool :=
  isOutOfBoundsFrame e.contentFrame p

/-- `updateSpawnDuration`: when spawning with a positive configured duration,
credit this call's elapsed milliseconds; once the credited total reaches the
duration, zero the timer and stop spawning. -/
def updateSpawnDuration (e : EmitterState) (elapsedMS : ℚ) : EmitterState :=
  if e.spawn = false ∨ e.spawnDuration ≤ 0 then e
  else
    let e := { e with spawnDurationElapsed := e.spawnDurationElapsed + elapsedMS }
    if e.spawnDurationElapsed < e.spawnDuration then e
    else { e with spawnDurationElapsed := 0, spawn := false }

/-- The age-culling comparison `particleItem.currentLife >= particleItem.lifespan`
(`none` models `Infinity`: a finite current life never reaches it). -/
def geLifespan (currentLife : ℚ) : Option ℚ → Bool
  | none => false
  | some l => decide (currentLife ≥ l)

/-- The cull condition of the update loop: dead of age or out of bounds. -/
def cullCheck (e : EmitterState) (p : Particle) : Bool :=
  geLifespan p.pd.currentLife p.pd.lifespan || isOutOfBounds e p

/-- `_killParticle`: detach from the display list (by index) and return the
particle to the pool. -/
def killParticle (e : EmitterState) (i : ℕ) (p : Particle) : EmitterState :=
  { e with children := e.children.eraseIdx i, pool := e.pool.ret p }

/-- The reverse-index update loop of `updateEmitter`: visit indices
`i-1, i-2, …, 0`; cull and recycle dead or out-of-bounds particles, advance
the rest with environment forces and physics (both driven by the accumulated
`updateElapsed`). -/
def updateParticles (r : ℕ → ℚ) : EmitterState → ℕ → EmitterState
  | e, 0 => e
  | e, i + 1 =>
    let e' :=
      match e.children.get? i with
      | none => e
      | some p =>
        if cullCheck e p then killParticle e i p
        else
          let p' := ParticleItem.updatePhysics (applyEnvironment e p e.updateElapsed)
            e.updateElapsed e.contentFrame
          { e with children := e.children.set i p' }
    updateParticles r e' i

/-- `updateEmitter`: accumulate the tick's `deltaMS` and bail out below the
configured interval; otherwise update the spawn-rate physics and spawn with
the accumulated elapsed time, advance the spawn-duration timer with the raw
`deltaMS`, run the particle loop, and zero the accumulator. -/
def updateEmitter (e : EmitterState) (r : ℕ → ℚ) (deltaMS : ℚ) : EmitterState :=
  let e := { e with updateElapsed := e.updateElapsed + deltaMS }
  if e.updateElapsed < e.updateOptions.interval then e
  else
    let e := updateSpawnRate e e.updateElapsed
    let e := doSpawn e r e.updateElapsed
    let e := updateSpawnDuration e deltaMS
    let e := updateParticles r e e.children.length
    { e with updateElapsed := 0 }

/-- `reset`: clear the lifecycle flags and timers, re-sample the spawn-rate
physics from the configuration, recompute the interval, and return every live
particle to the pool. -/
def reset (e : EmitterState) (r : ℕ → ℚ) : EmitterState :=
  let e := { e with
    isRunning := false, isPaused := false, spawn := false,
    updateElapsed := 0, spawnElapsed := 0 }
  let (sr, k) := randomFromRange r e.rk e.updateOptions.spawnRate.value
  let (srv, k) :=
    if truthyR e.updateOptions.spawnRate.velocity then
      randomFromRangeOpt r k e.updateOptions.spawnRate.velocity
    else (0, k)
  let (sra, k) :=
    if truthyR e.updateOptions.spawnRate.acceleration then
      randomFromRangeOpt r k e.updateOptions.spawnRate.acceleration
    else (0, k)
  let srm := e.updateOptions.spawnRate.maxVelocity.getD (-1)
  let e := { e with
    spawnRate := sr, spawnRateVelocity := srv, spawnRateAcceleration := sra,
    spawnRateMaxVelocity := srm, rk := k }
  let e := recalcSpawnInterval e
  let e := { e with spawnDurationElapsed := 0 }
  let pool := e.children.foldl (fun pl c => pl.ret c) e.pool
  { e with pool := pool, children := [] }

/-- The `ParticleEmitter` constructor: fail when neither a (truthy) lifespan
nor a content frame is configured; otherwise build the pool (prepopulating a
positive initial size), resolve the environment with `|| 0` defaults, store
the spawn duration when truthy, and run `reset`. -/
def mkEmitter (opts : EmitterOptions) (r : ℕ → ℚ) (k : ℕ) : Except String EmitterState :=
  if !truthyR opts.spawnOptions.lifespan && opts.contentFrame.isNone then
    .error "ParticleEmitter - You must define a lifespan or a contentFrame"
  else
    let pool : PPool := { maxPoolSize := opts.maxParticles }
    let pool := if 0 < opts.initialSize then pool.prepopulate opts.newParticle opts.initialSize else pool
    let env : EnvSt :=
      match opts.updateOptions.environment with
      | some envOpts =>
        { gravity := envOpts.gravity.getD 0,
          airResistance := envOpts.airResistance.getD 0,
          windX := envOpts.windX.getD 0,
          windY := envOpts.windY.getD 0,
          affectSurface := envOpts.affectSurface.getD false }
      | none => {}
    let spawnDuration :=
      if truthyN opts.updateOptions.spawnDuration then opts.updateOptions.spawnDuration.getD 0
      else 0
    let e : EmitterState :=
      { pool := pool,
        contentFrame := opts.contentFrame,
        spawnOptions := opts.spawnOptions,
        updateOptions := opts.updateOptions,
        env := env,
        spawnDuration := spawnDuration,
        newParticle := opts.newParticle,
        rk := k }
    .ok (reset e r)

/-- `start(emit)`: no-op while running; otherwise set the spawn flag, prime
the spawn accumulator with one full interval, connect to the clock and mark
the emitter running. -/
def start (e : EmitterState) (emit : Bool) : EmitterState :=
  if e.isRunning then e
  else
    { e with
      spawn := emit, spawnElapsed := e.spawnInterval,
      clockConnected := true, isRunning := true }

end ParticleEmitter

/-
Concrete scenarios used by the theorems below.
-/

/-- A degenerate random supply: every draw is 0 (any supply works for the
scenarios below, whose configurations are scalar except where noted). -/
def rZero : ℕ → ℚ := fun _ => 0

/-- Minimal spawn options: spawn at the origin with a one-second lifespan. -/
def originSpawn : SpawnOptions :=
  { position := { x := .scalar 0, y := .scalar 0 }, lifespan := some (.scalar 1) }

/-- Spawn options whose `onInit` hook stores 5 into the particle's `mass`
(a prior occupancy customizing a public field). -/
def massHookSpawn : SpawnOptions :=
  { originSpawn with onInit := some (fun q _ => { q with mass := 5 }) }

/-- First occupancy: an unbounded pool hands out a fresh particle initialized
with the mass-setting hook. -/
def c2FirstGet : Option Particle × PPool × ℕ :=
  PPool.get {} (freshParticle 10 10) { spawnOptions := massHookSpawn } rZero 0

/-- The particle of the first occupancy. -/
def c2P1 : Particle := c2FirstGet.1.getD (freshParticle 10 10)

/-- The pool after the first occupancy's particle is returned. -/
def c2PoolAfterReturn : PPool := (c2FirstGet.2.1).ret c2P1

/-- Second occupancy: the returned particle is reused and re-initialized with
plain spawn options (no hooks). -/
def c2SecondGet : Option Particle × PPool × ℕ :=
  c2PoolAfterReturn.get (freshParticle 10 10) { spawnOptions := originSpawn } rZero c2FirstGet.2.2

/-- The reused particle after `init` completes. -/
def c2P2 : Particle := c2SecondGet.1.getD (freshParticle 10 10)

/-- A placeholder emitter state used only to strip the `Except` layer of
`mkEmitter` in scenarios where construction is known to succeed. -/
def dummyEmitter : EmitterState :=
  { pool := {},
    spawnOptions := originSpawn,
    updateOptions := { spawnRate := { value := .scalar 0 }, interval := 0 },
    newParticle := freshParticle 0 0 }

/-- The C3 scenario configuration: spawn rate 1000 particles/s (interval
1 ms), emitter tick interval 100 ms, unbounded pool, one-second lifespan. -/
def c3Opts : EmitterOptions :=
  { newParticle := freshParticle 0 0,
    initialSize := 0,
    spawnOptions := originSpawn,
    updateOptions := { spawnRate := { value := .scalar 1000 }, interval := 100 } }

/-- The C3 scenario after construction, `start(true)` and one 100 ms tick. -/
def c3Final : EmitterState :=
  let e0 := (ParticleEmitter.mkEmitter c3Opts rZero 0).toOption.getD dummyEmitter
  ParticleEmitter.updateEmitter (ParticleEmitter.start e0 true) rZero 100

/-- The C4 scenario configuration: every sampled lifespan is 0 (the range
`[0,0]`), spawn rate 10 particles/s, tick interval 100 ms, no region. -/
def c4Opts : EmitterOptions :=
  { newParticle := freshParticle 0 0,
    initialSize := 0,
    spawnOptions := { position := { x := .scalar 0, y := .scalar 0 },
                      lifespan := some (.pair 0 0) },
    updateOptions := { spawnRate := { value := .scalar 10 }, interval := 100 } }

/-- The C4 scenario after construction, `start(true)` and one 100 ms tick. -/
def c4Final : EmitterState :=
  let e0 := (ParticleEmitter.mkEmitter c4Opts rZero 0).toOption.getD dummyEmitter
  ParticleEmitter.updateEmitter (ParticleEmitter.start e0 true) rZero 100

/-- The C5 scenario configuration: tick gating interval 100 ms, spawn
duration 120 ms, spawn rate 0 (so no particles are produced). -/
def c5Opts : EmitterOptions :=
  { newParticle := freshParticle 0 0,
    initialSize := 0,
    spawnOptions := originSpawn,
    updateOptions := { spawnRate := { value := .scalar 0 }, interval := 100,
                       spawnDuration := some 120 } }

/-- The C5 scenario after construction, `start(true)` and two 60 ms ticks
(120 ms of wall-clock time while spawning). -/
def c5Final : EmitterState :=
  let e0 := (ParticleEmitter.mkEmitter c5Opts rZero 0).toOption.getD dummyEmitter
  let e1 := ParticleEmitter.start e0 true
  ParticleEmitter.updateEmitter (ParticleEmitter.updateEmitter e1 rZero 60) rZero 60

/-- The C6 scenario particle: 10×10 texture at scale 1, anchored at the
default center, at vertical center height of the region. -/
def c6P (px : ℚ) : Particle :=
  { pd := { texWidth := 10, texHeight := 10, x := px, y := 50 } }

/-- The C6 scenario region. -/
def c6Frame : Rect := { x := 0, y := 0, width := 100, height := 100 }

/-- The C8 scenario options: a configured lifespan that is the falsy scalar
`0`, and no content frame. -/
def c8Opts : EmitterOptions :=
  { newParticle := freshParticle 0 0,
    initialSize := 0,
    spawnOptions := { position := { x := .scalar 0, y := .scalar 0 },
                      lifespan := some (.scalar 0) },
    updateOptions := { spawnRate := { value := .scalar 10 }, interval := 100 } }

/-- An environment with only air resistance active. -/
def c9Env : EnvSt := { airResistance := 1 }

/-- A particle with negative mass and horizontal speed 10. -/
def c9P : Particle := { pd := { mass := -1, velocityX := 10 } }

/-- An environment with air resistance coefficient 1/2 and surface-area
effects disabled. -/
def c9EnvHalf : EnvSt := { airResistance := 1/2 }

/-- A particle with surface factor 7 and horizontal speed 10. -/
def c9PSurface : Particle := { pd := { surfaceFactor := 7, velocityX := 10 } }

/-- The C1 counterexample run: a pool capped at one instance is prepopulated
with three, which `get` then hands out one after another. -/
def c1Run : PoolSim × List ℕ :=
  (PoolSim.create (some 1) none).run [.prepopulate 3, .get, .get, .get]

/-- Whether an emitter construction succeeded. -/
def exceptOk : Except String EmitterState → Bool
  | .ok _ => true
  | .error _ => false

/-- Left edge of a particle's axis-aligned box, as the bounds check computes
it from position, width and anchor. -/
def boxLeft (q : PData) : ℚ := q.x - ParticleEmitter.pWidth q * q.anchorX

/-- Top edge of a particle's axis-aligned box. -/
def boxTop (q : PData) : ℚ := q.y - ParticleEmitter.pHeight q * q.anchorY

/-- Right edge of a particle's axis-aligned box. -/
def boxRight (q : PData) : ℚ := boxLeft q + ParticleEmitter.pWidth q

/-- Bottom edge of a particle's axis-aligned box. -/
def boxBottom (q : PData) : ℚ := boxTop q + ParticleEmitter.pHeight q

/-- Spec-side reading of one axis of the bounds check: the whole interval
`[lo, hi]` lies outside the interval `[flo, fhi]`. -/
def axisDisjoint (lo hi flo fhi : ℚ) : Prop :=
  ∀ t, lo ≤ t → t ≤ hi → t < flo ∨ fhi < t

/-- Spec-side reading of the out-of-bounds condition, following the spec's
words: the particle's axis-aligned box lies entirely outside the configured
rectangle on at least one axis. -/
def specOutside (f : Rect) (p : Particle) : Prop :=
  axisDisjoint (boxLeft p.pd) (boxRight p.pd) f.x (f.x + f.width) ∨
    axisDisjoint (boxTop p.pd) (boxBottom p.pd) f.y (f.y + f.height)

/-- A particle mid-transition with a negative sampled lifespan, used to
witness the amended C4 claim. -/
def c4WitnessP : Particle :=
  { pd := { lifespan := some (-1), scaleStart := some 2, scaleEnd := some 3,
            alphaStart := 1/2, alphaEnd := 1 } }

/-- A particle with a positive velocity cap, used to witness the C7 claim. -/
def c7CapP : Particle :=
  { pd := { velocityX := 10, accelerationX := 1, maxVelocityX := 3,
            maxVelocityY := 4, maxScaleVelocityX := 5, maxScaleVelocityY := 6,
            maxRotationVelocity := 7 } }

/-- A particle with an uncapped, positively accelerated horizontal velocity,
used to witness the unbounded-growth part of the C7 claim. -/
def c7FreeP : Particle :=
  { pd := { velocityX := 0, accelerationX := 1 } }

/-- An emitter state mid-run with the spawn-duration timer active, used to
witness the amended C5 claim. -/
def c5WitnessE : EmitterState :=
  { dummyEmitter with spawn := true, spawnDuration := 120, spawnDurationElapsed := 30,
                      updateOptions := { spawnRate := { value := .scalar 0 }, interval := 100 } }

/-- Whether a `return` operation's instance id is below `m` (non-`return`
operations pass trivially); used to restrict runs to returns of instances the
pool itself created. -/
def retIdxLt (m : ℕ) : PoolOp → Bool
  | .ret i => decide (i < m)
  | _ => true

/-- The per-axis air-resistance reduction amount of the spec:
`elapsedSec * surfaceFactor * airResistanceCoefficient * |velocity| / mass`,
with the surface factor replaced by 1 when surface-area effects are off. -/
def airReduction (env : EnvSt) (p : Particle) (ms v : ℚ) : ℚ :=
  ms / 1000 * (if ParticleEmitter.isPhysicsAffectedByParticleSurface env then p.pd.surfaceFactor else 1) *
    env.airResistance * |v| / p.pd.mass

/-- A particle with unit mass moving on both axes, used to witness the
amended C9 claim. -/
def c9WitnessP : Particle := { pd := { velocityX := 10, velocityY := -4 } }

/-
Theorems.
-/

/-- C1 counterexample: on a pool constructed with `maxPoolSize = 1`,
the operation sequence `prepopulate 3; get; get; get` makes `get` return
three distinct created instances, because `prepopulate` creates instances
without consulting `maxPoolSize`.  This falsifies the claim that `get`
returns at most `maxPoolSize` distinct created instances over every
operation sequence that includes `prepopulate`. -/
theorem C1_counterexample :
    c1Run.1.maxPoolSize = some 1 ∧ c1Run.2.toFinset.card = 3 ∧
      ¬(c1Run.2.toFinset.card ≤ 1) := by
  decide

/-- C2: a particle whose first occupancy's `onInit` hook set `mass := 5` is
returned to the pool and reused; after `get` runs `init` to completion the
reused particle still carries `mass = 5` from the prior occupancy, although a
freshly constructed particle has the default `mass = 1` (`reset` restores
every field listed in its body but never touches `mass`).  `inPool` is
`false` immediately after `get`, as the claim states. -/
theorem C2_reset_mass_leak :
    c2P2.pd.inPool = false ∧ c2P2.pd.mass = 5 ∧
      (freshParticle 10 10).pd.mass = 1 ∧ c2P2.pd.mass ≠ 1 := by
  decide

set_option maxRecDepth 40000 in
/-- C3 counterexample: with `spawnRate.value = 1000` (spawn interval 1 ms),
tick interval 100 ms, `start(true)` and an unbounded pool, the first
qualifying tick spawns 101 particles, not 100: `start` primes the spawn
accumulator with one full interval, so the accumulator reads 101 ms. -/
theorem C3_counterexample :
    c3Final.children.length = 101 ∧ c3Final.children.length ≠ 100 := by
  have h101 : c3Final.children.length = 101 := by with_unfolding_all rfl
  refine ⟨h101, ?_⟩
  rw [h101]
  norm_num

set_option maxRecDepth 40000 in
/-- C3 amended: the scenario spawns exactly 101 particles on the first
qualifying tick (the spawn accumulator is primed with one interval by
`start`, so it reads 101 ms, and 101 fresh instances are created), with
spawn-accumulator remainder 0. -/
theorem C3_first_tick_spawn_count :
    c3Final.children.length = 101 ∧ c3Final.spawnElapsed = 0 ∧
      c3Final.pool.createdCount = 101 := by
  refine ⟨?_, ?_, ?_⟩ <;> with_unfolding_all rfl

/-- C4 counterexample: an emitter whose spawn options sample every lifespan
as 0 (the range `[0,0]`), with no bounding region configured, spawns two
particles on its first qualifying tick and culls both by age in the same
tick (`currentLife >= lifespan` holds at once), leaving no live children and
both instances back in the pool.  This falsifies the claim that a particle
with a zero sampled lifespan is never culled by age. -/
theorem C4_counterexample :
    c4Final.pool.createdCount = 2 ∧ c4Final.children.length = 0 ∧
      c4Final.pool.items.length = 2 ∧ c4Final.contentFrame.isNone = true := by
  refine ⟨?_, ?_, ?_, ?_⟩ <;> with_unfolding_all rfl

/-- C5 counterexample: tick interval 100 ms, spawn duration 120 ms,
`start(true)`, then two 60 ms clock ticks.  120 ms of wall-clock time have
elapsed while spawning, which the claim says suffices to stop spawning, yet
only the second (qualifying) tick's raw 60 ms were credited to the timer and
`spawn` is still on. -/
theorem C5_counterexample :
    c5Final.spawn = true ∧ c5Final.spawnDurationElapsed = 60 ∧
      c5Final.spawnDurationElapsed ≠ 120 := by
  refine ⟨?_, ?_, ?_⟩
  · with_unfolding_all rfl
  · with_unfolding_all rfl
  · have h60 : c5Final.spawnDurationElapsed = 60 := by with_unfolding_all rfl
    rw [h60]
    norm_num

/-- C6 counterexample: the 10×10 center-anchored particle at center
`(-95, 50)` has box `[-100, -90] × [45, 55]`, which is entirely left of the
region `(0, 0, 100, 100)`, so the code reports it out of bounds — the claim
asserts it is not reported outside at center x = -95. -/
theorem C6_counterexample :
    ParticleEmitter.isOutOfBoundsFrame (some c6Frame) (c6P (-95)) = true := by
  with_unfolding_all rfl

/-- C8 counterexample: spawn options that configure the lifespan as the
scalar `0` (a present but JS-falsy value), with no bounding region, make
construction fail, although the claim says construction succeeds whenever a
lifespan is configured. -/
theorem C8_counterexample :
    c8Opts.spawnOptions.lifespan.isSome = true ∧
      exceptOk (ParticleEmitter.mkEmitter c8Opts rZero 0) = false := by
  decide

/-- C9 counterexample: (a) with air-resistance coefficient 1 and a particle
of mass `-1` moving at velocity 10, one second of air resistance yields
velocity 20 — the magnitude grows, contradicting the claim's "never
increases" for arbitrary particles; (b) with surface-area effects disabled,
a particle with `surfaceFactor = 7` is slowed using factor 1, not its
`surfaceFactor`: the claim's formula predicts a reduction of 35 (clamped
result 0) while the code yields 5. -/
theorem C9_counterexample :
    ((ParticleEmitter.applyEnvFrame c9Env c9P 1000).pd.velocityX = 20 ∧
      |c9P.pd.velocityX| < |(ParticleEmitter.applyEnvFrame c9Env c9P 1000).pd.velocityX|) ∧
    ((ParticleEmitter.applyEnvFrame c9EnvHalf c9PSurface 1000).pd.velocityX = 5 ∧
      1000 / 1000 * c9PSurface.pd.surfaceFactor * c9EnvHalf.airResistance *
          |c9PSurface.pd.velocityX| / c9PSurface.pd.mass = 35 ∧
      (ParticleEmitter.applyEnvFrame c9EnvHalf c9PSurface 1000).pd.velocityX ≠ 0 ∧
      (ParticleEmitter.applyEnvFrame c9EnvHalf c9PSurface 1000).pd.velocityX ≠
        c9PSurface.pd.velocityX - 35) := by
  have hA : (ParticleEmitter.applyEnvFrame c9Env c9P 1000).pd.velocityX = 20 := by
    with_unfolding_all rfl
  have hv : c9P.pd.velocityX = 10 := rfl
  have hB : (ParticleEmitter.applyEnvFrame c9EnvHalf c9PSurface 1000).pd.velocityX = 5 := by
    with_unfolding_all rfl
  have hvs : c9PSurface.pd.velocityX = 10 := rfl
  have hformula : 1000 / 1000 * c9PSurface.pd.surfaceFactor * c9EnvHalf.airResistance *
      |c9PSurface.pd.velocityX| / c9PSurface.pd.mass = 35 := by
    with_unfolding_all rfl
  refine ⟨⟨hA, ?_⟩, hB, hformula, ?_, ?_⟩
  · rw [hA, hv, abs_of_nonneg (by norm_num : (0:ℚ) ≤ 10),
      abs_of_nonneg (by norm_num : (0:ℚ) ≤ 20)]
    norm_num
  · rw [hB]
    norm_num
  · rw [hB, hvs]
    norm_num


/-- C8 amended: emitter construction fails exactly when the configured
lifespan is absent or JS-falsy (the scalar `0`) and no bounding region is
supplied; any truthy lifespan (a non-zero scalar or any range, including
`[0,0]`) or a region makes construction succeed. -/
theorem C8_construction_iff :
    ∀ (opts : EmitterOptions) (r : ℕ → ℚ) (k : ℕ),
      exceptOk (ParticleEmitter.mkEmitter opts r k) = false ↔
        (truthyR opts.spawnOptions.lifespan = false ∧ opts.contentFrame.isNone = true) := by
  intro opts r k
  unfold ParticleEmitter.mkEmitter
  split
  next h =>
    simp only [Bool.and_eq_true, Bool.not_eq_true'] at h
    simpa [exceptOk] using h
  next h =>
    simp only [Bool.and_eq_true, Bool.not_eq_true'] at h
    simpa [exceptOk] using h

/-- C10: with the seed drawn from `[0, 1)` and a non-empty color array, the
index `floor(seed * length)` computed at particle init is at least 0 and at
most `length - 1`, so the array access is always in bounds. -/
theorem C10_color_index_in_bounds :
    ∀ (seed : ℚ) (cs : List ℚ), 0 ≤ seed → seed < 1 → cs ≠ [] →
      0 ≤ colorArrayIndex seed cs.length ∧
      (colorArrayIndex seed cs.length).toNat < cs.length ∧
      (cs.get? (colorArrayIndex seed cs.length).toNat).isSome = true := by
  intro seed cs h0 h1 hne
  have hlen : 0 < cs.length := List.length_pos.mpr hne
  have hlenQ : (0:ℚ) < (cs.length : ℚ) := by exact_mod_cast hlen
  have hfl0 : 0 ≤ colorArrayIndex seed cs.length := by
    unfold colorArrayIndex
    exact Int.floor_nonneg.mpr (mul_nonneg h0 hlenQ.le)
  have hlt : colorArrayIndex seed cs.length < (cs.length : ℤ) := by
    unfold colorArrayIndex
    have hm : seed * (cs.length : ℚ) < (cs.length : ℚ) := by nlinarith
    exact Int.floor_lt.mpr (by exact_mod_cast hm)
  have htn : (colorArrayIndex seed cs.length).toNat < cs.length := by omega
  refine ⟨hfl0, htn, ?_⟩
  rw [List.get?_eq_get htn]
  rfl

/-- Witness for C10 at seed 1/2 and a three-element color array. -/
theorem C10_color_index_in_bounds_witness :
    0 ≤ colorArrayIndex (1/2) ([1, 2, 3] : List ℚ).length ∧
    (colorArrayIndex (1/2) ([1, 2, 3] : List ℚ).length).toNat < ([1, 2, 3] : List ℚ).length ∧
    (([1, 2, 3] : List ℚ).get? (colorArrayIndex (1/2) ([1, 2, 3] : List ℚ).length).toNat).isSome
      = true :=
  C10_color_index_in_bounds (1/2) [1, 2, 3] (by norm_num) (by norm_num) (by simp)

/-- C5 amended: a tick that does not reach the gating interval only
accumulates `updateElapsed` and credits nothing to the spawn-duration timer;
a qualifying tick credits exactly its own raw `deltaMS` to the timer (so
elapsed time of non-qualifying ticks is never credited), and `spawn` is
switched off on the first call whose credited total reaches the configured
duration. -/
theorem C5_duration_credit :
    (∀ (e : EmitterState) (r : ℕ → ℚ) (d : ℚ),
        e.updateElapsed + d < e.updateOptions.interval →
        ParticleEmitter.updateEmitter e r d = { e with updateElapsed := e.updateElapsed + d }) ∧
    (∀ (e : EmitterState) (d : ℚ),
        e.spawn = true → 0 < e.spawnDuration → e.spawnDurationElapsed + d < e.spawnDuration →
        ParticleEmitter.updateSpawnDuration e d =
          { e with spawnDurationElapsed := e.spawnDurationElapsed + d }) ∧
    (∀ (e : EmitterState) (d : ℚ),
        e.spawn = true → 0 < e.spawnDuration → e.spawnDuration ≤ e.spawnDurationElapsed + d →
        ParticleEmitter.updateSpawnDuration e d =
          { e with spawnDurationElapsed := 0, spawn := false }) := by
  refine ⟨?_, ?_, ?_⟩
  · intro e r d h
    unfold ParticleEmitter.updateEmitter
    rw [if_pos (by simpa using h)]
  · intro e d hs hd hlt
    unfold ParticleEmitter.updateSpawnDuration
    have hng : ¬(e.spawn = false ∨ e.spawnDuration ≤ 0) := by
      rintro (h | h)
      · rw [hs] at h
        exact Bool.noConfusion h
      · exact absurd h (not_le.mpr hd)
    rw [if_neg hng, if_pos (by simpa using hlt)]
  · intro e d hs hd hle
    unfold ParticleEmitter.updateSpawnDuration
    have hng : ¬(e.spawn = false ∨ e.spawnDuration ≤ 0) := by
      rintro (h | h)
      · rw [hs] at h
        exact Bool.noConfusion h
      · exact absurd h (not_le.mpr hd)
    rw [if_neg hng, if_neg (by simpa using not_lt.mpr hle)]

/-- Witness for C5 at a concrete emitter state: a sub-interval tick only
accumulates, a qualifying credit below the duration adds the raw delta, and
a credit reaching the duration stops spawning. -/
theorem C5_duration_credit_witness :
    ParticleEmitter.updateEmitter c5WitnessE rZero 10 =
      { c5WitnessE with updateElapsed := c5WitnessE.updateElapsed + 10 } ∧
    ParticleEmitter.updateSpawnDuration c5WitnessE 60 =
      { c5WitnessE with spawnDurationElapsed := c5WitnessE.spawnDurationElapsed + 60 } ∧
    ParticleEmitter.updateSpawnDuration c5WitnessE 100 =
      { c5WitnessE with spawnDurationElapsed := 0, spawn := false } :=
  ⟨C5_duration_credit.1 c5WitnessE rZero 10
      (by norm_num [c5WitnessE, dummyEmitter]),
   C5_duration_credit.2.1 c5WitnessE 60 (by norm_num [c5WitnessE, dummyEmitter])
      (by norm_num [c5WitnessE, dummyEmitter]) (by norm_num [c5WitnessE, dummyEmitter]),
   C5_duration_credit.2.2 c5WitnessE 100 (by norm_num [c5WitnessE, dummyEmitter])
      (by norm_num [c5WitnessE, dummyEmitter]) (by norm_num [c5WitnessE, dummyEmitter])⟩


/-- The hook slots of a particle are untouched by `updatePhysics`. -/
theorem updatePhysics_onUpdate (p : Particle) (dt : ℚ) (fr : Option Rect) :
    (ParticleItem.updatePhysics p dt fr).onUpdate = p.onUpdate := rfl

/-- With no `onUpdate` hook, the state `updatePhysics` produces is the
clamping stage applied to an intermediate state whose caps, horizontal
acceleration, integrated horizontal velocity, current life and lifespan
relate to the input as the integration steps dictate. -/
theorem updatePhysics_pd_structure (p : Particle) (dt : ℚ) (fr : Option Rect)
    (h : p.onUpdate = none) :
    ∃ q : PData,
      (ParticleItem.updatePhysics p dt fr).pd =
        { q with
          velocityX := ParticleItem.clampAbs q.velocityX q.maxVelocityX,
          velocityY := ParticleItem.clampAbs q.velocityY q.maxVelocityY,
          scaleVelocityX := ParticleItem.clampAbs q.scaleVelocityX q.maxScaleVelocityX,
          scaleVelocityY := ParticleItem.clampAbs q.scaleVelocityY q.maxScaleVelocityY,
          rotationVelocity := ParticleItem.clampAbs q.rotationVelocity q.maxRotationVelocity } ∧
      q.maxVelocityX = p.pd.maxVelocityX ∧
      q.maxVelocityY = p.pd.maxVelocityY ∧
      q.maxScaleVelocityX = p.pd.maxScaleVelocityX ∧
      q.maxScaleVelocityY = p.pd.maxScaleVelocityY ∧
      q.maxRotationVelocity = p.pd.maxRotationVelocity ∧
      q.velocityX = p.pd.velocityX + p.pd.accelerationX * (dt / 1000) ∧
      q.accelerationX = p.pd.accelerationX ∧
      q.currentLife = p.pd.currentLife + dt / 1000 ∧
      q.lifespan = p.pd.lifespan := by
  simp only [ParticleItem.updatePhysics, h]
  repeat' split
  all_goals exact ⟨_, rfl, by simp [updateSurfaceFactor], by simp [updateSurfaceFactor],
    by simp [updateSurfaceFactor], by simp [updateSurfaceFactor], by simp [updateSurfaceFactor],
    by simp [updateSurfaceFactor], by simp [updateSurfaceFactor], by simp [updateSurfaceFactor],
    by simp [updateSurfaceFactor]⟩


/-- Magnitude clamping against a non-negative cap bounds the magnitude. -/
theorem abs_clampAbs_le (v c : ℚ) (hc : 0 ≤ c) : |ParticleItem.clampAbs v c| ≤ c := by
  unfold ParticleItem.clampAbs
  rw [if_neg (not_lt.mpr hc)]
  split
  · rw [abs_of_nonneg hc]
  · split
    · rw [abs_neg, abs_of_nonneg hc]
    · next h1 h2 => exact abs_le.mpr ⟨le_of_not_lt h2, le_of_not_gt h1⟩

/-- A negative cap disables clamping. -/
theorem clampAbs_of_neg (v c : ℚ) (hc : c < 0) : ParticleItem.clampAbs v c = v := by
  unfold ParticleItem.clampAbs
  rw [if_pos hc]

/-- With no `onUpdate` hook and an uncapped horizontal velocity, iterating
`updatePhysics` integrates the (constant) horizontal acceleration linearly. -/
theorem iterAdvance_velocityX (dt : ℚ) (fr : Option Rect) :
    ∀ (n : ℕ) (p : Particle), p.onUpdate = none → p.pd.maxVelocityX < 0 →
      (ParticleItem.iterAdvance p dt fr n).pd.velocityX
          = p.pd.velocityX + n * (p.pd.accelerationX * (dt / 1000)) ∧
      (ParticleItem.iterAdvance p dt fr n).pd.accelerationX = p.pd.accelerationX := by
  intro n
  induction n with
  | zero =>
    intro p h hneg
    constructor
    · show p.pd.velocityX = _
      push_cast
      ring
    · rfl
  | succ n ih =>
    intro p h hneg
    obtain ⟨q, hq, hm1, _, _, _, _, hvx, hax, _, _⟩ := updatePhysics_pd_structure p dt fr h
    have hqneg : q.maxVelocityX < 0 := by rw [hm1]; exact hneg
    have h' : (ParticleItem.updatePhysics p dt fr).onUpdate = none := by
      rw [updatePhysics_onUpdate]; exact h
    have hneg' : (ParticleItem.updatePhysics p dt fr).pd.maxVelocityX < 0 := by
      rw [hq]; exact hqneg
    have hup : (ParticleItem.updatePhysics p dt fr).pd.velocityX
        = p.pd.velocityX + p.pd.accelerationX * (dt / 1000) := by
      rw [hq]
      show ParticleItem.clampAbs q.velocityX q.maxVelocityX = _
      rw [clampAbs_of_neg _ _ hqneg, hvx]
    have hupa : (ParticleItem.updatePhysics p dt fr).pd.accelerationX = p.pd.accelerationX := by
      rw [hq]; exact hax
    obtain ⟨ihv, iha⟩ := ih (ParticleItem.updatePhysics p dt fr) h' hneg'
    constructor
    · show (ParticleItem.iterAdvance (ParticleItem.updatePhysics p dt fr) dt fr n).pd.velocityX = _
      rw [ihv, hup, hupa]
      push_cast
      ring
    · show (ParticleItem.iterAdvance (ParticleItem.updatePhysics p dt fr) dt fr n).pd.accelerationX = _
      rw [iha, hupa]

/-- C7: with no `onUpdate` hook, every velocity-like field whose cap is
non-negative has magnitude at most the cap after `advance`; a negative cap
disables clamping entirely, and with a positive acceleration an uncapped
velocity exceeds any bound after enough advances. -/
theorem C7_velocity_caps :
    (∀ (p : Particle) (dt : ℚ) (fr : Option Rect), p.onUpdate = none →
      (0 ≤ p.pd.maxVelocityX →
        |(ParticleItem.updatePhysics p dt fr).pd.velocityX| ≤ p.pd.maxVelocityX) ∧
      (0 ≤ p.pd.maxVelocityY →
        |(ParticleItem.updatePhysics p dt fr).pd.velocityY| ≤ p.pd.maxVelocityY) ∧
      (0 ≤ p.pd.maxScaleVelocityX →
        |(ParticleItem.updatePhysics p dt fr).pd.scaleVelocityX| ≤ p.pd.maxScaleVelocityX) ∧
      (0 ≤ p.pd.maxScaleVelocityY →
        |(ParticleItem.updatePhysics p dt fr).pd.scaleVelocityY| ≤ p.pd.maxScaleVelocityY) ∧
      (0 ≤ p.pd.maxRotationVelocity →
        |(ParticleItem.updatePhysics p dt fr).pd.rotationVelocity| ≤ p.pd.maxRotationVelocity)) ∧
    (∀ (v c : ℚ), c < 0 → ParticleItem.clampAbs v c = v) ∧
    (∀ (p : Particle) (dt M : ℚ) (fr : Option Rect), p.onUpdate = none →
      p.pd.maxVelocityX < 0 → 0 < p.pd.accelerationX → 0 < dt →
      ∃ n : ℕ, M < (ParticleItem.iterAdvance p dt fr n).pd.velocityX) := by
  refine ⟨?_, ?_, ?_⟩
  · intro p dt fr h
    obtain ⟨q, hq, hm1, hm2, hm3, hm4, hm5, _, _, _, _⟩ := updatePhysics_pd_structure p dt fr h
    refine ⟨fun hc => ?_, fun hc => ?_, fun hc => ?_, fun hc => ?_, fun hc => ?_⟩ <;>
      rw [hq]
    · rw [← hm1]
      exact abs_clampAbs_le _ _ (by rw [hm1]; exact hc)
    · rw [← hm2]
      exact abs_clampAbs_le _ _ (by rw [hm2]; exact hc)
    · rw [← hm3]
      exact abs_clampAbs_le _ _ (by rw [hm3]; exact hc)
    · rw [← hm4]
      exact abs_clampAbs_le _ _ (by rw [hm4]; exact hc)
    · rw [← hm5]
      exact abs_clampAbs_le _ _ (by rw [hm5]; exact hc)
  · exact clampAbs_of_neg
  · intro p dt M fr h hneg ha hdt
    have hdt' : 0 < dt / 1000 := by positivity
    have hstep : 0 < p.pd.accelerationX * (dt / 1000) := mul_pos ha hdt'
    obtain ⟨n, hn⟩ := exists_nat_gt ((M - p.pd.velocityX) / (p.pd.accelerationX * (dt / 1000)))
    refine ⟨n, ?_⟩
    rw [(iterAdvance_velocityX dt fr n p h hneg).1]
    have h2 := (div_lt_iff₀ hstep).mp hn
    linarith

/-- Witness for C7: a concrete capped particle respects its cap after one
advance, a negative cap leaves a value unclamped, and a concrete uncapped
accelerating particle eventually exceeds one million. -/
theorem C7_velocity_caps_witness :
    (|(ParticleItem.updatePhysics c7CapP 100 none).pd.velocityX| ≤ c7CapP.pd.maxVelocityX) ∧
    ParticleItem.clampAbs 42 (-1) = 42 ∧
    (∃ n : ℕ, 1000000 < (ParticleItem.iterAdvance c7FreeP 100 none n).pd.velocityX) :=
  ⟨(C7_velocity_caps.1 c7CapP 100 none rfl).1 (by norm_num [c7CapP]),
   C7_velocity_caps.2.1 42 (-1) (by norm_num),
   C7_velocity_caps.2.2 c7FreeP 100 1000000 none rfl (by norm_num [c7FreeP])
     (by norm_num [c7FreeP]) (by norm_num)⟩


/-- With no hooks, a non-positive sampled lifespan and an active scale and
alpha transition, `updatePhysics` freezes the transitions at their start
values (the life fraction is pinned to 0). -/
theorem updatePhysics_transition_frozen (p : Particle) (dt : ℚ) (fr : Option Rect)
    (h : p.onUpdate = none) (hag : p.alphaGetter = none) (hcg : p.colorGetter = none)
    (l : ℚ) (hlife : p.pd.lifespan = some l) (hl : l ≤ 0)
    (s e2 : ℚ) (hs : p.pd.scaleStart = some s) (he : p.pd.scaleEnd = some e2)
    (ha1 : p.pd.alphaStart > -1) (ha2 : p.pd.alphaEnd > -1) :
    (ParticleItem.updatePhysics p dt fr).pd.scaleX = s ∧
    (ParticleItem.updatePhysics p dt fr).pd.scaleY = s ∧
    (ParticleItem.updatePhysics p dt fr).pd.alpha = p.pd.alphaStart := by
  have hsafe : ParticleItem.safeLifespan (some l) = none := by
    simp [ParticleItem.safeLifespan, not_lt.mpr hl]
  simp only [ParticleItem.updatePhysics, h, hag, hcg, hlife, hsafe, hs, he,
    ParticleItem.lifePercent]
  repeat' split
  all_goals simp_all [updateSurfaceFactor]

/-- C4 amended: a particle whose sampled lifespan is zero or negative is
treated as immortal inside `advance` — its life fraction is pinned to 0, so
start/end transitions never progress — but the emitter's cull check compares
`currentLife` with the raw sampled lifespan, so such a particle is culled by
age at the first qualifying tick that examines it. -/
theorem C4_lifespan_guard :
    ∀ (p : Particle) (l dt : ℚ) (fr : Option Rect),
      p.pd.lifespan = some l → l ≤ 0 →
      p.onUpdate = none → p.alphaGetter = none → p.colorGetter = none →
      0 ≤ p.pd.currentLife → 0 ≤ dt →
      (∀ c : ℚ, ParticleItem.lifePercent (ParticleItem.safeLifespan p.pd.lifespan) c = 0) ∧
      (∀ s e2 : ℚ, p.pd.scaleStart = some s → p.pd.scaleEnd = some e2 →
        p.pd.alphaStart > -1 → p.pd.alphaEnd > -1 →
        (ParticleItem.updatePhysics p dt fr).pd.scaleX = s ∧
        (ParticleItem.updatePhysics p dt fr).pd.alpha = p.pd.alphaStart) ∧
      ParticleEmitter.geLifespan (ParticleItem.updatePhysics p dt fr).pd.currentLife
        (ParticleItem.updatePhysics p dt fr).pd.lifespan = true ∧
      (∀ e : EmitterState, e.contentFrame = none →
        ParticleEmitter.cullCheck e (ParticleItem.updatePhysics p dt fr) = true) := by
  intro p l dt fr hlife hl h hag hcg hcur hdt
  obtain ⟨q, hq, _, _, _, _, _, _, _, hcl, hls⟩ := updatePhysics_pd_structure p dt fr h
  have hup_cl : (ParticleItem.updatePhysics p dt fr).pd.currentLife
      = p.pd.currentLife + dt / 1000 := by
    rw [hq]; exact hcl
  have hup_ls : (ParticleItem.updatePhysics p dt fr).pd.lifespan = some l := by
    rw [hq]
    show q.lifespan = some l
    rw [hls, hlife]
  have hge : ParticleEmitter.geLifespan (ParticleItem.updatePhysics p dt fr).pd.currentLife
      (ParticleItem.updatePhysics p dt fr).pd.lifespan = true := by
    rw [hup_cl, hup_ls]
    simp only [ParticleEmitter.geLifespan, decide_eq_true_eq]
    have hdiv : 0 ≤ dt / 1000 := by positivity
    linarith
  refine ⟨?_, ?_, hge, ?_⟩
  · intro c
    rw [hlife]
    simp [ParticleItem.safeLifespan, ParticleItem.lifePercent, not_lt.mpr hl]
  · intro s e2 hs he ha1 ha2
    have hf := updatePhysics_transition_frozen p dt fr h hag hcg l hlife hl s e2 hs he ha1 ha2
    exact ⟨hf.1, hf.2.2⟩
  · intro e he
    unfold ParticleEmitter.cullCheck ParticleEmitter.isOutOfBounds
    rw [he, hge]
    rfl

/-- Witness for C4 at a concrete particle: negative sampled lifespan, active
scale and alpha transitions, one 100 ms advance. -/
theorem C4_lifespan_guard_witness :
    (∀ c : ℚ, ParticleItem.lifePercent (ParticleItem.safeLifespan c4WitnessP.pd.lifespan) c = 0) ∧
    (∀ s e2 : ℚ, c4WitnessP.pd.scaleStart = some s → c4WitnessP.pd.scaleEnd = some e2 →
      c4WitnessP.pd.alphaStart > -1 → c4WitnessP.pd.alphaEnd > -1 →
      (ParticleItem.updatePhysics c4WitnessP 100 none).pd.scaleX = s ∧
      (ParticleItem.updatePhysics c4WitnessP 100 none).pd.alpha = c4WitnessP.pd.alphaStart) ∧
    ParticleEmitter.geLifespan (ParticleItem.updatePhysics c4WitnessP 100 none).pd.currentLife
      (ParticleItem.updatePhysics c4WitnessP 100 none).pd.lifespan = true ∧
    (∀ e : EmitterState, e.contentFrame = none →
      ParticleEmitter.cullCheck e (ParticleItem.updatePhysics c4WitnessP 100 none) = true) :=
  C4_lifespan_guard c4WitnessP (-1) 100 none rfl (by norm_num) rfl rfl rfl
    (by norm_num [c4WitnessP]) (by norm_num)


/-- Strict one-axis outsideness of the code coincides with interval
disjointness when both intervals are nonempty. -/
theorem axisDisjoint_iff (lo hi flo fhi : ℚ) (hlohi : lo ≤ hi) (hf : flo ≤ fhi) :
    (hi < flo ∨ lo > fhi) ↔ axisDisjoint lo hi flo fhi := by
  constructor
  · rintro (hc | hc) t ht1 ht2
    · exact Or.inl (lt_of_le_of_lt ht2 hc)
    · exact Or.inr (lt_of_lt_of_le hc ht1)
  · intro hd
    by_contra hcon
    push_neg at hcon
    obtain ⟨h1, h2⟩ := hcon
    rcases hd (max lo flo) (le_max_left _ _) (max_le hlohi h1) with h | h
    · exact absurd h (not_lt.mpr (le_max_right _ _))
    · exact absurd h (not_lt.mpr (max_le h2 hf))

/-- C6 amended: in the scenario the particle is reported outside at center
x = -105 but also already at x = -6 (once the box is entirely left of the
region, that is once the center is past x = -5), and not outside at x = -5;
in general, the check reports true exactly when the particle's box is
entirely outside the region on at least one axis, so partial overlap is
never culled. -/
theorem C6_bounds :
    ParticleEmitter.isOutOfBoundsFrame (some c6Frame) (c6P (-105)) = true ∧
    ParticleEmitter.isOutOfBoundsFrame (some c6Frame) (c6P (-6)) = true ∧
    ParticleEmitter.isOutOfBoundsFrame (some c6Frame) (c6P (-5)) = false ∧
    (∀ (p : Particle) (f : Rect), 0 ≤ p.pd.texWidth → 0 ≤ p.pd.texHeight →
      0 ≤ f.width → 0 ≤ f.height →
      (ParticleEmitter.isOutOfBoundsFrame (some f) p = true ↔ specOutside f p)) := by
  refine ⟨by with_unfolding_all rfl, by with_unfolding_all rfl, by with_unfolding_all rfl, ?_⟩
  intro p f htw hth hfw hfh
  have hw : 0 ≤ ParticleEmitter.pWidth p.pd := mul_nonneg (abs_nonneg _) htw
  have hh : 0 ≤ ParticleEmitter.pHeight p.pd := mul_nonneg (abs_nonneg _) hth
  have hx := axisDisjoint_iff (boxLeft p.pd) (boxRight p.pd) f.x (f.x + f.width)
    (by simp only [boxRight]; linarith) (by linarith)
  have hy := axisDisjoint_iff (boxTop p.pd) (boxBottom p.pd) f.y (f.y + f.height)
    (by simp only [boxBottom]; linarith) (by linarith)
  unfold ParticleEmitter.isOutOfBoundsFrame
  simp only [decide_eq_true_eq, specOutside]
  rw [← hx, ← hy]
  simp only [boxLeft, boxRight, boxTop, boxBottom]
  tauto

/-- Witness for C6 at a concrete particle and frame. -/
theorem C6_bounds_witness :
    ParticleEmitter.isOutOfBoundsFrame (some c6Frame) (c6P 50) = true ↔
      specOutside c6Frame (c6P 50) :=
  C6_bounds.2.2.2 (c6P 50) c6Frame (by norm_num [c6P]) (by norm_num [c6P])
    (by norm_num [c6Frame]) (by norm_num [c6Frame])

/-- Sign times magnitude recovers the value. -/
theorem mathSign_mul_abs (v : ℚ) : mathSign v * |v| = v := by
  unfold mathSign
  rcases lt_trichotomy v 0 with h | h | h
  · rw [if_neg (not_lt.mpr h.le), if_pos h, abs_of_neg h]
    ring
  · simp [h]
  · rw [if_pos h, abs_of_pos h]
    ring

/-- The air-resistance axis update never increases the magnitude. -/
theorem airAxis_abs_le (v red : ℚ) (hred : 0 ≤ red) :
    |if |v| > red then mathSign v * (|v| - red) else 0| ≤ |v| := by
  split
  · next hgt =>
    have hv : v ≠ 0 := by
      intro h0
      rw [h0, abs_zero] at hgt
      linarith
    have habs : |mathSign v| = 1 := by
      unfold mathSign
      rcases lt_trichotomy v 0 with h | h | h
      · rw [if_neg (not_lt.mpr h.le), if_pos h]
        norm_num
      · exact absurd h hv
      · rw [if_pos h]
        norm_num
    rw [abs_mul, habs, one_mul, abs_of_nonneg (by linarith : (0:ℚ) ≤ |v| - red)]
    linarith
  · simp [abs_nonneg]

/-- The air-resistance axis update yields zero or preserves the sign. -/
theorem airAxis_sign (v red : ℚ) (hred : 0 ≤ red) :
    (if |v| > red then mathSign v * (|v| - red) else 0) = 0 ∨
    mathSign (if |v| > red then mathSign v * (|v| - red) else 0) = mathSign v := by
  split
  · next hgt =>
    right
    rcases lt_trichotomy v 0 with h | h | h
    · have hs : mathSign v = -1 := by
        unfold mathSign
        rw [if_neg (not_lt.mpr h.le), if_pos h]
      rw [hs]
      have hneg : -1 * (|v| - red) < 0 := by
        have : 0 < |v| - red := by linarith
        linarith
      unfold mathSign
      rw [if_neg (not_lt.mpr hneg.le), if_pos hneg]
    · rw [h, abs_zero] at hgt
      linarith
    · have hs : mathSign v = 1 := by
        unfold mathSign
        rw [if_pos h]
      rw [hs]
      have hpos : 0 < 1 * (|v| - red) := by
        have : 0 < |v| - red := by linarith
        linarith
      unfold mathSign
      rw [if_pos hpos]
  · exact Or.inl rfl


/-- C9 amended: with only air resistance active, each velocity axis is
reduced by `elapsedSec * s * airResistance * |velocity| / mass` — where `s`
is the particle's surface factor when surface-area effects apply and `1`
otherwise — floored at zero; for positive mass, non-negative effective
surface factor, elapsed time and coefficient, the result keeps its sign or
becomes exactly 0 and its magnitude never increases. -/
theorem C9_air_resistance :
    ∀ (env : EnvSt) (p : Particle) (ms : ℚ),
      env.gravity = 0 → env.windX = 0 → env.windY = 0 →
      0 ≤ env.airResistance → 0 < p.pd.mass → 0 ≤ ms →
      0 ≤ (if ParticleEmitter.isPhysicsAffectedByParticleSurface env
           then p.pd.surfaceFactor else 1) →
      ((ParticleEmitter.applyEnvFrame env p ms).pd.velocityX =
          (if |p.pd.velocityX| > airReduction env p ms p.pd.velocityX
           then mathSign p.pd.velocityX * (|p.pd.velocityX| - airReduction env p ms p.pd.velocityX)
           else 0) ∧
        |(ParticleEmitter.applyEnvFrame env p ms).pd.velocityX| ≤ |p.pd.velocityX| ∧
        ((ParticleEmitter.applyEnvFrame env p ms).pd.velocityX = 0 ∨
          mathSign (ParticleEmitter.applyEnvFrame env p ms).pd.velocityX
            = mathSign p.pd.velocityX)) ∧
      ((ParticleEmitter.applyEnvFrame env p ms).pd.velocityY =
          (if |p.pd.velocityY| > airReduction env p ms p.pd.velocityY
           then mathSign p.pd.velocityY * (|p.pd.velocityY| - airReduction env p ms p.pd.velocityY)
           else 0) ∧
        |(ParticleEmitter.applyEnvFrame env p ms).pd.velocityY| ≤ |p.pd.velocityY| ∧
        ((ParticleEmitter.applyEnvFrame env p ms).pd.velocityY = 0 ∨
          mathSign (ParticleEmitter.applyEnvFrame env p ms).pd.velocityY
            = mathSign p.pd.velocityY)) := by
  intro env p ms hg hwx hwy hcoef hmass hms hsurf
  have hmassne : p.pd.mass ≠ 0 := ne_of_gt hmass
  have h1000 : (0:ℚ) ≤ 1000 := by norm_num
  have hredX : 0 ≤ airReduction env p ms p.pd.velocityX := by
    unfold airReduction
    exact div_nonneg
      (mul_nonneg (mul_nonneg (mul_nonneg (div_nonneg hms h1000) hsurf) hcoef) (abs_nonneg _))
      hmass.le
  have hredY : 0 ≤ airReduction env p ms p.pd.velocityY := by
    unfold airReduction
    exact div_nonneg
      (mul_nonneg (mul_nonneg (mul_nonneg (div_nonneg hms h1000) hsurf) hcoef) (abs_nonneg _))
      hmass.le
  have hEqX : (ParticleEmitter.applyEnvFrame env p ms).pd.velocityX =
      (if |p.pd.velocityX| > airReduction env p ms p.pd.velocityX
       then mathSign p.pd.velocityX * (|p.pd.velocityX| - airReduction env p ms p.pd.velocityX)
       else 0) := by
    by_cases hc : env.airResistance = 0
    · have hred0 : airReduction env p ms p.pd.velocityX = 0 := by
        unfold airReduction
        rw [hc]
        ring
      have hlhs : (ParticleEmitter.applyEnvFrame env p ms).pd.velocityX = p.pd.velocityX := by
        simp [ParticleEmitter.applyEnvFrame, hg, hwx, hwy, hc]
      rw [hlhs, hred0]
      split
      · next hgt => rw [sub_zero, mathSign_mul_abs]
      · next hng =>
        have h0 : |p.pd.velocityX| = 0 := le_antisymm (not_lt.mp hng) (abs_nonneg _)
        exact (abs_eq_zero.mp h0)
    · by_cases hvx : p.pd.velocityX = 0
      · have hred0 : airReduction env p ms p.pd.velocityX = 0 := by
          unfold airReduction
          rw [hvx, abs_zero]
          ring
        rw [hred0, hvx, abs_zero]
        rw [if_neg (lt_irrefl 0)]
        simp only [ParticleEmitter.applyEnvFrame, hg, hwx, hwy]
        simp_all [apply_ite (fun q : PData => q.velocityX)]
      · simp only [ParticleEmitter.applyEnvFrame, airReduction, hg, hwx, hwy]
        simp [hc, hvx, hmassne]
        repeat' split
        all_goals rfl
  have hEqY : (ParticleEmitter.applyEnvFrame env p ms).pd.velocityY =
      (if |p.pd.velocityY| > airReduction env p ms p.pd.velocityY
       then mathSign p.pd.velocityY * (|p.pd.velocityY| - airReduction env p ms p.pd.velocityY)
       else 0) := by
    by_cases hc : env.airResistance = 0
    · have hred0 : airReduction env p ms p.pd.velocityY = 0 := by
        unfold airReduction
        rw [hc]
        ring
      have hlhs : (ParticleEmitter.applyEnvFrame env p ms).pd.velocityY = p.pd.velocityY := by
        simp [ParticleEmitter.applyEnvFrame, hg, hwx, hwy, hc]
      rw [hlhs, hred0]
      split
      · next hgt => rw [sub_zero, mathSign_mul_abs]
      · next hng =>
        have h0 : |p.pd.velocityY| = 0 := le_antisymm (not_lt.mp hng) (abs_nonneg _)
        exact (abs_eq_zero.mp h0)
    · by_cases hvy : p.pd.velocityY = 0
      · have hred0 : airReduction env p ms p.pd.velocityY = 0 := by
          unfold airReduction
          rw [hvy, abs_zero]
          ring
        rw [hred0, hvy, abs_zero]
        rw [if_neg (lt_irrefl 0)]
        simp only [ParticleEmitter.applyEnvFrame, hg, hwx, hwy]
        simp_all [apply_ite (fun q : PData => q.velocityY)]
      · simp only [ParticleEmitter.applyEnvFrame, airReduction, hg, hwx, hwy]
        simp [hc, hvy, hmassne]
        repeat' split
        all_goals rfl
  refine ⟨⟨hEqX, ?_, ?_⟩, hEqY, ?_, ?_⟩
  · rw [hEqX]
    exact airAxis_abs_le _ _ hredX
  · rw [hEqX]
    exact airAxis_sign _ _ hredX
  · rw [hEqY]
    exact airAxis_abs_le _ _ hredY
  · rw [hEqY]
    exact airAxis_sign _ _ hredY

/-- Witness for C9 at a concrete air-resistance-only environment and a unit
mass particle moving on both axes. -/
theorem C9_air_resistance_witness :
    ((ParticleEmitter.applyEnvFrame c9Env c9WitnessP 1000).pd.velocityX =
        (if |c9WitnessP.pd.velocityX| > airReduction c9Env c9WitnessP 1000 c9WitnessP.pd.velocityX
         then mathSign c9WitnessP.pd.velocityX *
            (|c9WitnessP.pd.velocityX| - airReduction c9Env c9WitnessP 1000 c9WitnessP.pd.velocityX)
         else 0) ∧
      |(ParticleEmitter.applyEnvFrame c9Env c9WitnessP 1000).pd.velocityX|
          ≤ |c9WitnessP.pd.velocityX| ∧
      ((ParticleEmitter.applyEnvFrame c9Env c9WitnessP 1000).pd.velocityX = 0 ∨
        mathSign (ParticleEmitter.applyEnvFrame c9Env c9WitnessP 1000).pd.velocityX
          = mathSign c9WitnessP.pd.velocityX)) ∧
    ((ParticleEmitter.applyEnvFrame c9Env c9WitnessP 1000).pd.velocityY =
        (if |c9WitnessP.pd.velocityY| > airReduction c9Env c9WitnessP 1000 c9WitnessP.pd.velocityY
         then mathSign c9WitnessP.pd.velocityY *
            (|c9WitnessP.pd.velocityY| - airReduction c9Env c9WitnessP 1000 c9WitnessP.pd.velocityY)
         else 0) ∧
      |(ParticleEmitter.applyEnvFrame c9Env c9WitnessP 1000).pd.velocityY|
          ≤ |c9WitnessP.pd.velocityY| ∧
      ((ParticleEmitter.applyEnvFrame c9Env c9WitnessP 1000).pd.velocityY = 0 ∨
        mathSign (ParticleEmitter.applyEnvFrame c9Env c9WitnessP 1000).pd.velocityY
          = mathSign c9WitnessP.pd.velocityY)) :=
  C9_air_resistance c9Env c9WitnessP 1000 rfl rfl rfl (by norm_num [c9Env])
    (by norm_num [c9WitnessP]) (by norm_num)
    (by norm_num [ParticleEmitter.isPhysicsAffectedByParticleSurface, c9Env])


/-- One non-`prepopulate` pool operation whose `return` id (if any) is below
`m` keeps the cap, keeps every free-list id below `m`, and hands out only
ids below `m`. -/
theorem poolSimStep_bound (s : PoolSim) (op : PoolOp) (m : ℕ)
    (hmax : s.maxPoolSize = some (m : ℤ))
    (hinv : ∀ j ∈ s.items, j < m)
    (hpre : op.isPrepopulate = false)
    (hret : ∀ i, op = PoolOp.ret i → i < m) :
    (s.step op).1.maxPoolSize = some (m : ℤ) ∧
    (∀ j ∈ (s.step op).1.items, j < m) ∧
    (∀ i, (s.step op).2 = some i → i < m) := by
  cases op with
  | get =>
    cases hlast : s.items.getLast? with
    | some i =>
      have heq := List.dropLast_append_getLast? i (Option.mem_def.mpr hlast)
      simp only [PoolSim.step, hlast]
      refine ⟨hmax, ?_, ?_⟩
      · intro j hj
        refine hinv j ?_
        rw [← heq]
        exact List.mem_append_left _ hj
      · intro i' hi'
        obtain rfl : i = i' := by simpa using hi'
        refine hinv i ?_
        rw [← heq]
        exact List.mem_append_right _ (List.mem_singleton_self i)
    | none =>
      simp only [PoolSim.step, hlast]
      split
      · next hcr =>
        refine ⟨hmax, hinv, ?_⟩
        intro i' hi'
        obtain rfl : s.createdCount = i' := by simpa using hi'
        rw [hmax] at hcr
        simp only [createdLtMax, decide_eq_true_eq] at hcr
        exact_mod_cast hcr
      · exact ⟨hmax, hinv, by simp⟩
  | ret i =>
    simp only [PoolSim.step]
    split
    · exact ⟨hmax, hinv, by simp⟩
    · refine ⟨hmax, ?_, by simp⟩
      intro j hj
      rcases List.mem_append.mp hj with hj | hj
      · exact hinv j hj
      · rw [List.mem_singleton.mp hj]
        exact hret i rfl
  | clear =>
    simp only [PoolSim.step]
    refine ⟨hmax, ?_, by simp⟩
    intro j hj
    simp at hj
  | prepopulate n =>
    simp [PoolOp.isPrepopulate] at hpre

/-- Along a run of non-`prepopulate` operations that only return ids below
`m`, every id `get` hands out is below `m`. -/
theorem poolSimRun_outputs_lt (m : ℕ) :
    ∀ (ops : List PoolOp) (s : PoolSim),
      s.maxPoolSize = some (m : ℤ) →
      (∀ j ∈ s.items, j < m) →
      (∀ op ∈ ops, op.isPrepopulate = false) →
      (∀ i : ℕ, PoolOp.ret i ∈ ops → i < m) →
      ∀ j ∈ (PoolSim.run s ops).2, j < m := by
  intro ops
  induction ops with
  | nil =>
    intro s _ _ _ _ j hj
    simp [PoolSim.run] at hj
  | cons op rest ih =>
    intro s hmax hinv hpre hret j hj
    obtain ⟨hmax', hinv', hout⟩ := poolSimStep_bound s op m hmax hinv
      (hpre op (List.mem_cons_self op rest))
      (fun i hi => hret i (hi ▸ List.mem_cons_self op rest))
    rcases hstep : s.step op with ⟨s', out⟩
    rw [hstep] at hmax' hinv' hout
    simp only [PoolSim.run, hstep] at hj
    rcases List.mem_append.mp hj with hj | hj
    · cases out with
      | none => simp at hj
      | some i =>
        obtain rfl : j = i := by simpa using hj
        exact hout j rfl
    · exact ih s' hmax' hinv'
        (fun o ho => hpre o (List.mem_cons_of_mem op ho))
        (fun i hi => hret i (List.mem_cons_of_mem op hi)) j hj

/-- C1 amended: on a pool constructed with `maxPoolSize = m` and no initial
size, any sequence of `get`, `return` and `clear` operations — no
`prepopulate`, and returning only instances the pool itself created (ids
below `m`) — makes `get` hand out at most `m` distinct created instances
over the pool's lifetime.  (`prepopulate` breaks this bound, as the
counterexample shows, because it creates instances without consulting
`maxPoolSize`.) -/
theorem C1_get_distinct_bounded :
    ∀ (m : ℕ) (ops : List PoolOp),
      (∀ op ∈ ops, op.isPrepopulate = false) →
      (∀ op ∈ ops, retIdxLt m op = true) →
      ((PoolSim.create (some (m : ℤ)) none).run ops).2.toFinset.card ≤ m := by
  intro m ops hpre hret
  have hret' : ∀ i : ℕ, PoolOp.ret i ∈ ops → i < m := by
    intro i hi
    have := hret _ hi
    simpa [retIdxLt] using this
  have hbound := poolSimRun_outputs_lt m ops (PoolSim.create (some (m : ℤ)) none) rfl
    (by intro j hj; simp [PoolSim.create] at hj) hpre hret'
  have hsub : ((PoolSim.create (some (m : ℤ)) none).run ops).2.toFinset ⊆ Finset.range m := by
    intro j hj
    rw [List.mem_toFinset] at hj
    exact Finset.mem_range.mpr (hbound j hj)
  calc ((PoolSim.create (some (m : ℤ)) none).run ops).2.toFinset.card
      ≤ (Finset.range m).card := Finset.card_le_card hsub
    _ = m := Finset.card_range m

/-- Witness for C1: a capacity-2 pool run through gets, a legal return and a
clear hands out at most two distinct instances. -/
theorem C1_get_distinct_bounded_witness :
    (∀ op ∈ ([.get, .get, .ret 0, .get, .clear, .get] : List PoolOp),
      op.isPrepopulate = false) ∧
    (∀ op ∈ ([.get, .get, .ret 0, .get, .clear, .get] : List PoolOp),
      retIdxLt 2 op = true) ∧
    ((PoolSim.create (some (2 : ℤ)) none).run
      [.get, .get, .ret 0, .get, .clear, .get]).2.toFinset.card ≤ 2 :=
  ⟨by decide, by decide,
   C1_get_distinct_bounded 2 [.get, .get, .ret 0, .get, .clear, .get] (by decide) (by decide)⟩

end Partyx
